import Mathlib

/-!
Verification of the shrek-superslam library: shallow embedding of the
compression codec (`src/compression.rs`), the name hash (`src/hash.rs`),
the class registry (`src/classes/mod.rs`), and the .bin container
operations (`src/files/bin.rs`, `src/classes/player/attacks.rs`).

Bytes are modelled as `Nat` (values < 256 where the Rust type is `u8`).
Rust panics (out-of-bounds slicing/indexing, integer-underflow aborts,
`unwrap` of an error) are modelled explicitly: functions that can panic
return `Option` or an `Outcome` with a dedicated fault constructor, and
the fault propagates the way a Rust panic unwinds.
-/

/-! ## Compression codec (src/compression.rs) -/

def MAX_DISTANCE : Nat := 0x1011D

/-- The final block emitted by `compress` for the remaining bytes `rest`
(`src/compression.rs` lines 36-52): a header selected by the remaining
length, the raw bytes, then the `[0x00, 0x00]` stream terminator.
`% 256` models the Rust `as u8` casts. -/
def compressFinal (rest : List Nat) : List Nat :=
  let remaining := rest.length
  (if remaining > 0x11D then
    [0xF8, (remaining - 0x11E) % 256, ((remaining - 0x11E) >>> 8) % 256]
  else if remaining > 0x1D then
    [0xF0, (remaining - 0x1E) % 256]
  else
    [(remaining <<< 3) % 256]) ++ rest ++ [0x00, 0x00]

/-- The `while remaining > MAX_DISTANCE` loop of `compress`
(`src/compression.rs` lines 27-33) followed by the final block.  The loop
is modelled with explicit fuel so the definition is structural; one unit
of fuel per iteration, and `compress` below supplies `d.length` units,
which exceeds the iteration count (each iteration drops
`MAX_DISTANCE ≥ 1` bytes), so the fuel-exhausted branch is unreachable. -/
def compressBlocks : Nat → List Nat → List Nat
  | 0, d => compressFinal d
  | fuel + 1, d =>
    if d.length > MAX_DISTANCE then
      0xF8 :: 0xFF :: 0xFF ::
        (d.take MAX_DISTANCE ++ compressBlocks fuel (d.drop MAX_DISTANCE))
    else compressFinal d

/-- `compress` (`src/compression.rs` lines 20-55). -/
def compress (decompressed : List Nat) : List Nat :=
  compressBlocks decompressed.length decompressed

/-- The literal-run copy of `decompress` (`src/compression.rs` lines
95-98): `decompressed.extend(&compressed[index..(index + distance)])`.
The Rust slice panics (`none`) when `index + distance` exceeds the input
length.  Returns the new input cursor and output buffer. -/
def litcopy (cs : List Nat) (index : Nat) (out : List Nat) (distance : Nat) :
    Option (Nat × List Nat) :=
  if distance = 0 then some (index, out)
  else if index + distance ≤ cs.length then
    some (index + distance, out ++ (cs.drop index).take distance)
  else none

/-- The three-way distance extension shared by both token kinds of
`decompress` (`src/compression.rs` lines 76-93 and 116-131), without the
outer token's `MAX_DISTANCE` sentinel adjustment.  Reads zero, one or two
further bytes at `index`; reading past the input end is the Rust index
panic (`none`).  Returns the new input cursor and the extended
distance. -/
def extendDistance (cs : List Nat) (index : Nat) (distance : Nat) :
    Option (Nat × Nat) :=
  if distance = 0x1E then
    match cs[index]? with
    | none => none
    | some b => some (index + 1, b + 0x1E)
  else if 0x1E < distance then
    match cs[index]? with
    | none => none
    | some b0 =>
      match cs[index + 1]? with
      | none => none
      | some b1 => some (index + 2, distance + b0 + (b1 <<< 8) + 0xFF)
  else some (index, distance)

/-- The back-reference copy loop of `decompress` (`src/compression.rs`
lines 133-136): append `len` bytes, each read at
`decompressed[decompressed.len() - 1 - distance]` at append time.  When
`distance ≥ out.length` the Rust `usize` subtraction underflows (or the
index is out of bounds), a panic (`none`). -/
def backcopy (out : List Nat) (distance : Nat) : Nat → Option (List Nat)
  | 0 => some out
  | len + 1 =>
    if distance < out.length then
      backcopy (out ++ [out.getD (out.length - 1 - distance) 0]) distance len
    else none

/-- One step of the `decompress` loops (`src/compression.rs` lines
70-138), as a fuel-indexed state machine over (input cursor, output,
pending back-reference token count).  `inner = 0` processes an outer
literal-run token (lines 71-100); `inner = k + 1` processes one of the
`bound` back-reference tokens (lines 101-137).  Every recursive call
advances the input cursor by at least one byte, so the fuel supplied by
`decompress` below (input length + 1) never runs out before the real
code would either return or panic; `none` models a panic.  The outer
token's sentinel decrement (lines 88-90) is applied after
`extendDistance`: a distance equal to `MAX_DISTANCE` can only arise from
the `Greater` branch, so this is the same test as the in-branch one in
the source. -/
def dstep : Nat → List Nat → Nat → List Nat → Nat → Option (List Nat)
  | 0, _, _, _, _ => none
  | fuel + 1, cs, index, out, inner =>
    match inner with
    | 0 =>
      match cs[index]? with
      | none => none
      | some current =>
        let length := current % 8 + 1
        let distance := current / 8
        match extendDistance cs (index + 1) distance with
        | none => none
        | some (i1, d1) =>
          let length1 := if d1 = MAX_DISTANCE then length - 1 else length
          match litcopy cs i1 out d1 with
          | none => none
          | some (i2, out2) => dstep fuel cs i2 out2 length1
    | k + 1 =>
      match cs[index]? with
      | none => none
      | some current =>
        let length := current % 8
        let distance := current / 8
        if length = 0 then
          match cs[index + 1]? with
          | none => none
          | some n =>
            if n = 0 then some out
            else
              match extendDistance cs (index + 2) distance with
              | none => none
              | some (i1, d1) =>
                match backcopy out d1 (n + 7) with
                | none => none
                | some out2 => dstep fuel cs i1 out2 k
        else
          match extendDistance cs (index + 1) distance with
          | none => none
          | some (i1, d1) =>
            match backcopy out d1 length with
            | none => none
            | some out2 => dstep fuel cs i1 out2 k

/-- `decompress` (`src/compression.rs` lines 66-139).  `some` is a
normal return, `none` is a Rust panic (the source function has no error
path: it returns `Vec<u8>` and indexes the input and output
unchecked). -/
def decompress (compressed : List Nat) : Option (List Nat) :=
  dstep (compressed.length + 1) compressed 0 [] 0

/-- Unfolding equation for a `dstep` outer literal-run token. -/
theorem dstep_outer (fuel : Nat) (cs : List Nat) (index : Nat)
    (out : List Nat) :
    dstep (fuel + 1) cs index out 0 =
      match cs[index]? with
      | none => none
      | some current =>
        match extendDistance cs (index + 1) (current / 8) with
        | none => none
        | some (i1, d1) =>
          match litcopy cs i1 out d1 with
          | none => none
          | some (i2, out2) =>
            dstep fuel cs i2 out2
              (if d1 = MAX_DISTANCE then current % 8 + 1 - 1
               else current % 8 + 1) := by
  rfl

/-- Unfolding equation for a `dstep` back-reference token. -/
theorem dstep_inner (fuel : Nat) (cs : List Nat) (index : Nat)
    (out : List Nat) (k : Nat) :
    dstep (fuel + 1) cs index out (k + 1) =
      match cs[index]? with
      | none => none
      | some current =>
        if current % 8 = 0 then
          match cs[index + 1]? with
          | none => none
          | some n =>
            if n = 0 then some out
            else
              match extendDistance cs (index + 2) (current / 8) with
              | none => none
              | some (i1, d1) =>
                match backcopy out d1 (n + 7) with
                | none => none
                | some out2 => dstep fuel cs i1 out2 k
        else
          match extendDistance cs (index + 1) (current / 8) with
          | none => none
          | some (i1, d1) =>
            match backcopy out d1 (current % 8) with
            | none => none
            | some out2 => dstep fuel cs i1 out2 k := by
  rfl

/-- Processing the 3-byte maximum-length block header `F8 FF FF` followed
by its `MAX_DISTANCE` literal bytes: the extended distance hits the
`MAX_DISTANCE` sentinel, so the literal-run length is decremented to
zero and no back-reference token is consumed afterwards. -/
theorem dstep_max_block (fuel : Nat) (x rest : List Nat)
    (hx : x.length = MAX_DISTANCE) :
    dstep (fuel + 1) (0xF8 :: 0xFF :: 0xFF :: (x ++ rest)) 0 [] 0 =
      dstep fuel (0xF8 :: 0xFF :: 0xFF :: (x ++ rest)) (3 + MAX_DISTANCE)
        x 0 := by
  have hext : extendDistance (0xF8 :: 0xFF :: 0xFF :: (x ++ rest)) (0 + 1)
      (0xF8 / 8) = some (3, MAX_DISTANCE) := by
    rw [extendDistance]
    simp only [List.getElem?_cons_succ, List.getElem?_cons_zero]
    decide
  have hlit : litcopy (0xF8 :: 0xFF :: 0xFF :: (x ++ rest)) 3 []
      MAX_DISTANCE = some (3 + MAX_DISTANCE, x) := by
    rw [litcopy]
    have hlen : (0xF8 :: 0xFF :: 0xFF :: (x ++ rest)).length =
        3 + (x.length + rest.length) := by
      simp only [List.length_cons, List.length_append]
      omega
    rw [if_neg (by norm_num [MAX_DISTANCE]),
      if_pos (by rw [hlen, hx]; omega)]
    have hdrop : (0xF8 :: 0xFF :: 0xFF :: (x ++ rest)).drop 3 =
        x ++ rest := by
      simp
    rw [hdrop, ← hx, List.take_left, List.nil_append]
  rw [dstep_outer]
  simp only [List.getElem?_cons_zero, hext, hlit]
  norm_num

/-- An outer literal-run token `0x00` followed by the back-reference
token `0x00` whose extra length byte lies past the end of the input: the
decoder's terminator handling reads one byte too many and panics. -/
theorem dstep_terminator_oob (fuel : Nat) (cs : List Nat) (i : Nat)
    (out : List Nat) (h0 : cs[i]? = some 0) (h1 : cs[i + 1]? = some 0)
    (h2 : cs[i + 2]? = none) :
    dstep (fuel + 2) cs i out 0 = none := by
  have hext : extendDistance cs (i + 1) (0 / 8) = some (i + 1, 0) := by
    rw [extendDistance]; norm_num
  have hlit : litcopy cs (i + 1) out 0 = some (i + 1, out) := by
    rw [litcopy]; norm_num
  rw [show fuel + 2 = (fuel + 1) + 1 from rfl, dstep_outer]
  simp only [h0, hext, hlit]
  norm_num [MAX_DISTANCE]
  rw [show (1 : Nat) = 0 + 1 from rfl, dstep_inner]
  simp only [h1]
  norm_num
  rw [show i + 1 + 1 = i + 2 from rfl, h2]

/-- `compress` on an input of exactly `MAX_DISTANCE` bytes emits the
maximum-length block header followed by the raw bytes and the 2-byte
terminator. -/
theorem compress_at_max (x : List Nat) (hx : x.length = MAX_DISTANCE) :
    compress x = 0xF8 :: 0xFF :: 0xFF :: (x ++ [0x00, 0x00]) := by
  rw [compress, hx]
  rw [show MAX_DISTANCE = 0x1011C + 1 from rfl, compressBlocks]
  rw [if_neg (by rw [hx]; norm_num [MAX_DISTANCE])]
  simp only [compressFinal, hx]
  rw [if_pos (by norm_num [MAX_DISTANCE])]
  have hb1 : (MAX_DISTANCE - 0x11E) % 256 = 0xFF := by decide
  have hb2 : ((MAX_DISTANCE - 0x11E) >>> 8) % 256 = 0xFF := by decide
  rw [hb1, hb2]
  simp


/-- Reading three positions past the block header skips the header. -/
theorem getElem_cons3 (j : Nat) (l : List Nat) :
    (0xF8 :: 0xFF :: 0xFF :: l)[3 + j]? = l[j]? := by
  show ([0xF8, 0xFF, 0xFF] ++ l)[3 + j]? = _
  rw [List.getElem?_append_right
    (by simp only [List.length_cons, List.length_nil]; omega)]
  congr 1
  simp only [List.length_cons, List.length_nil]
  omega

/-- Reading the compressed stream for a `MAX_DISTANCE`-byte input at a
position past the literal block lands in the 2-byte terminator. -/
theorem compress_at_max_read_tail (x : List Nat)
    (hx : x.length = MAX_DISTANCE) (j : Nat) :
    (0xF8 :: 0xFF :: 0xFF :: (x ++ [0x00, 0x00]))[3 + (MAX_DISTANCE + j)]? =
      ([0x00, 0x00] : List Nat)[j]? := by
  rw [getElem_cons3]
  rw [List.getElem?_append_right (by omega)]
  congr 1
  omega

/-- Running the decoder over the whole compressed form of a
`MAX_DISTANCE`-byte input: the sentinel zeroes the literal-run length, so
the terminator's first byte is consumed as a fresh outer token and the
decoder reads one byte past the input end. -/
theorem dstep_compress_at_max (x : List Nat)
    (hx : x.length = MAX_DISTANCE) :
    dstep ((MAX_DISTANCE + 5) + 1)
      (0xF8 :: 0xFF :: 0xFF :: (x ++ [0x00, 0x00])) 0 [] 0 = none := by
  rw [dstep_max_block (MAX_DISTANCE + 5) _ _ hx]
  rw [show MAX_DISTANCE + 5 = (MAX_DISTANCE + 3) + 2 from by omega]
  apply dstep_terminator_oob
  · rw [show 3 + MAX_DISTANCE = 3 + (MAX_DISTANCE + 0) from by omega]
    rw [compress_at_max_read_tail x hx]
    simp
  · rw [show 3 + MAX_DISTANCE + 1 = 3 + (MAX_DISTANCE + 1) from by omega]
    rw [compress_at_max_read_tail x hx]
    simp
  · rw [show 3 + MAX_DISTANCE + 2 = 3 + (MAX_DISTANCE + 2) from by omega]
    rw [compress_at_max_read_tail x hx]
    simp

/-- Decompressing the compressed form of any `MAX_DISTANCE`-byte input
panics. -/
theorem decompress_compressed_max_panics (x : List Nat)
    (hx : x.length = MAX_DISTANCE) :
    decompress (0xF8 :: 0xFF :: 0xFF :: (x ++ [0x00, 0x00])) = none := by
  rw [decompress]
  have hlen : (0xF8 :: 0xFF :: 0xFF :: (x ++ [0x00, 0x00])).length + 1 =
      (MAX_DISTANCE + 5) + 1 := by
    simp only [List.length_cons, List.length_append, List.length_nil]
    omega
  rw [hlen]
  exact dstep_compress_at_max x hx

/-- C1 refuted: the round-trip `decompress (compress x) = x` fails — for
an input of exactly `MAX_DISTANCE` (0x1011D) zero bytes, decompressing
the compressed stream panics (reads past the input end) instead of
returning the input. -/
theorem decompress_compress_max_panics :
    decompress (compress (List.replicate MAX_DISTANCE 0)) = none := by
  have hx : (List.replicate MAX_DISTANCE 0).length = MAX_DISTANCE :=
    List.length_replicate _ _
  generalize hgen : List.replicate MAX_DISTANCE (0 : Nat) = x at hx
  rw [compress_at_max _ hx]
  exact decompress_compressed_max_panics x hx

/-! ## C6 / C7 concrete decoder evaluations -/

/-- C7 counterexample: with only `[0x00, 0x00]` the decoder consumes the
first `0x00` as an outer token, the second as a back-reference token
with `len = 0`, and then reads the missing length byte past the end of
the input — a panic, not an empty output. -/
theorem decompress_two_zero_bytes_panics : decompress [0x00, 0x00] = none := by
  decide

/-- C7 (amended): the minimal stream that decodes to an empty output is
the three-byte `[0x00, 0x00, 0x00]` (outer token, back-reference token,
length byte `0`); the spec's two-byte `[0x00, 0x00]` panics instead. -/
theorem decompress_three_zero_bytes : decompress [0x00, 0x00, 0x00] = some [] := by
  decide

/-- C6 refuted: malformed streams make `decompress` panic instead of
returning a `TooFewBytes`-style error value: `[0x01]` asks for a
back-reference token that lies past the input end, and `[0x00, 0x09]`
asks for a back-reference one byte behind the start of an empty
output. -/
theorem decompress_malformed_panics :
    decompress [0x01] = none ∧ decompress [0x00, 0x09] = none := by
  constructor
  · decide
  · decide

/-! ## Name hash (src/hash.rs) -/

/-- `char::to_ascii_lowercase` on the character's scalar value: ASCII
uppercase letters gain 0x20, everything else is unchanged. -/
def to_ascii_lowercase (n : Nat) : Nat :=
  if 65 ≤ n ∧ n ≤ 90 then n + 32 else n

/-- One iteration of the fold in `hash` (`src/hash.rs` lines 3-15):
`b = a; a >>= 0x1B; b <<= 0x05; a |= b; a ^= lowercase(c)`, on `u32`
(the left shift wraps modulo 2^32). -/
def hashStep (a : Nat) (ch : Char) : Nat :=
  ((a >>> 0x1B) ||| ((a <<< 0x05) % 2 ^ 32)) ^^^ to_ascii_lowercase ch.toNat

/-- `hash` (`src/hash.rs` lines 3-15): fold `hashStep` over the
characters of the name, starting from 0. -/
def superslam.hash (name : String) : Nat := name.data.foldl hashStep 0

/-- The `(hash, class name)` arms of the `match` in `hash_lookup`
(`src/classes/mod.rs` lines 135-527), in source order. -/
def hash_registry : List (Nat × String) := [
  (0xB974E53B, "Game::GameWorld"),
  (0xC239E1AB, "Game::RotationObject"),
  (0xE7DE386D, "Game::FrozenObject"),
  (0xC81858A7, "Game::HitPointObject"),
  (0xD94AF267, "Game::DangerObject"),
  (0x90B7F7D9, "Game::LoopingCombinationObject"),
  (0xEF9A1498, "Game::EffectObject"),
  (0x9848AD18, "Game::SoundObject"),
  (0x9386D5F8, "Game::SoundBox"),
  (0x850B9B2F, "Game::ForceBox"),
  (0xCE55537F, "Game::DestructibleObject"),
  (0x87C01D61, "Game::ReplacementItemSpawner"),
  (0xCD47AA2B, "Game::ItemSpawner"),
  (0xA1773A21, "Game::PlayerEffect"),
  (0xC320FF18, "Game::EffectStarter"),
  (0xDBFB4A35, "Game::ObjectInitializer"),
  (0x9ACD0AD1, "Game::PadTrigger"),
  (0x9414A807, "Game::HintTrigger"),
  (0xEEFC4B3C, "Game::PlayerFlagTrigger"),
  (0xD508DEF3, "Game::HoldingItemTrigger"),
  (0xC1CB398A, "Game::ItemTrigger"),
  (0xB2569A8D, "Game::TriggerTeleport"),
  (0xB576B7A0, "Game::TriggerMode"),
  (0xC0458C1A, "Game::TriggerEventSequence"),
  (0xBB8828E8, "Game::Trigger"),
  (0x90D8FCD6, "Game::Spitter"),
  (0x84AD7E70, "Game::SpitterKeyframe"),
  (0x9EDD2BDB, "Game::ShellController"),
  (0xCB4A46CD, "Game::PadStatus"),
  (0xA995C17E, "Game::LoseOnTime"),
  (0xBB17DA40, "Game::WinThreshold"),
  (0x96067A2C, "Game::LoseOnNoLives"),
  (0xD32DB93B, "Game::LoseIfTeamMemberLoses"),
  (0xAC50D20D, "Game::WinOnCount"),
  (0xBFCC890D, "Game::WinOnPoints"),
  (0xD19EA218, "Game::AlwaysHavePowerup"),
  (0xC496BEF7, "Game::AlwaysHaveWeapon"),
  (0xB9B84D11, "Game::RespawnAtTimes"),
  (0x9C321742, "Game::RespawnOnPlayerSlammed"),
  (0xEDF8FB25, "Game::RespawnIfPlayerDead"),
  (0x984D9BFA, "Game::RespawnAfterDeath"),
  (0xFAE4941A, "Game::AIDifficulty"),
  (0x9356083A, "Game::AIRampDifficultyByRound"),
  (0xE0529118, "Game::AIRampDifficultyOnLives"),
  (0x9D6A5031, "Game::AIHateForBeingHit"),
  (0xF3BFBC75, "Game::AIHatePlayer"),
  (0xFBB7890D, "Game::AIAllSettings"),
  (0xB1063F4E, "Game::AISettings"),
  (0xE6317725, "Game::AIHateRule"),
  (0xEF94268E, "Game::DieOnTrigger"),
  (0xBBE4569E, "Game::DieOnSlam"),
  (0xA9FD2CAB, "Game::RaceScoring"),
  (0xFD9397A9, "Game::ScoreUniqueSpitters"),
  (0xB848AE44, "Game::CountScoreThreshold"),
  (0xCF7DB63E, "Game::PointsForStat"),
  (0xA2F712DC, "Game::PointsForMove"),
  (0x838B238E, "Game::PointsForHolding"),
  (0xC86C019B, "Game::PointsForTrigger"),
  (0xC23DDB26, "Game::PointsForPickup"),
  (0xCDBF71ED, "Game::PointsForSlammingPlayer"),
  (0xF0DCB924, "Game::PointsForMultislam"),
  (0xD61C51D6, "Game::ReverseSlamScoring"),
  (0xB0D0C463, "Game::StandardSlamScoring"),
  (0xA30864D1, "Game::HitLoseMass"),
  (0xEE8D88D0, "Game::SlamDropCandy"),
  (0x8773A684, "Game::HitDropCandy"),
  (0xAE976571, "Game::MoveFilter"),
  (0xB9E2855B, "Game::HitGainOverTime"),
  (0xE362FD5C, "Game::HitSlamMeterFull"),
  (0xCADF8B33, "Game::HitDrainPower"),
  (0xB999E74C, "Game::HitGainPower"),
  (0xB71B8368, "Game::StandardHitCalculations"),
  (0xA735B439, "Game::WinRule"),
  (0xAC357B07, "Game::ScoreRule"),
  (0xB13062EB, "Game::Ruleset"),
  (0xA6FC81A0, "Game::RenderSpawn"),
  (0x898CE5F0, "Game::CollisionBone"),
  (0x9E086676, "Game::RenderBase"),
  (0xFACA7B72, "Game::CompoundLock"),
  (0xC66F1B0F, "Game::DebugAlwaysLock"),
  (0xB327837F, "Game::AllTrophyLock"),
  (0x877C2680, "Game::AllBadgesLock"),
  (0xF37E0B44, "Game::CharacterPlayedLock"),
  (0xF94ACEFD, "Game::StatLock"),
  (0xC2210CDD, "Game::TimeLock"),
  (0x99404BEF, "Game::SlamCountLock"),
  (0xA3C52BCB, "Game::LadderClearLock"),
  (0xE7E47AC7, "Game::PointsClearedLock"),
  (0xA34A56E0, "Game::ClusterClearedLock"),
  (0xDB95C924, "Game::ModeUnLockedLock"),
  (0xFD1FDE7E, "Game::LevelClearedLock"),
  (0xEF18743E, "Game::Lock"),
  (0x86ED912E, "Game::PrescribedMovement"),
  (0xE277740F, "Game::ApplauseMovementType"),
  (0x8046BF58, "Game::PanicRunMovementType"),
  (0x9EE64EBA, "Game::MagnetToPointMovementType"),
  (0x9A6A14A8, "Game::MagnetMovementType"),
  (0xFB09DBBB, "Game::FrozenMovementType"),
  (0xC147C572, "Game::PinataMovementType"),
  (0xA859DFEE, "Game::AttachToHavokObjMovementType"),
  (0xF24D9D30, "Game::GravityWandMovementType"),
  (0xCF617C7E, "Game::PrescribedMovementType"),
  (0xADDDF1EC, "Game::PhysicsFighting"),
  (0x894E3AE9, "Game::ComboSpec"),
  (0x90695169, "Game::BufferedMove"),
  (0x9616A4A0, "Game::AttackMove"),
  (0xEBF07BB5, "Game::AttackMoveType"),
  (0xF2CFE08D, "Game::AttackMoveRegion"),
  (0xB44FD060, "Game::PhysicsModelSimplePed"),
  (0xDB80AE8C, "Game::ContactStateModelConstrained"),
  (0xD886BF1B, "Game::ContactStateModelAirborn"),
  (0xE428884C, "Game::ContactStateModelGround"),
  (0xAD861E63, "Game::ContactStateModelBase"),
  (0xEA99DF81, "Game::PhysicsBase"),
  (0xE51FC5B0, "Game::perlin_noise_changing"),
  (0xB7AA610C, "Game::perlin_noise3d"),
  (0xE438E321, "Game::perlin_noise"),
  (0xB234F35A, "Game::perlin_noise_params"),
  (0xF7B763F1, "Game::LadderSetup"),
  (0xA0C4CC2F, "Game::CinematicMode"),
  (0xEC441540, "Game::Mode"),
  (0xAD9A2CB2, "Game::PreloadData"),
  (0x95172616, "Game::Level"),
  (0xE87813BA, "Game::LevelMesh"),
  (0x93AE869C, "Game::NodeSetUp3D"),
  (0xDC27C781, "Game::NodeSetUp2DWithTackOn"),
  (0xC1E2134A, "Game::NodeSetUp2D"),
  (0x8340CF0F, "Game::NodeSetUp1D"),
  (0x925430CB, "Game::NodeSetUp"),
  (0x81FB7394, "Game::SetValuePairString"),
  (0x92BAC9D4, "Game::SetValuePairObject"),
  (0xCB08B9C2, "Game::SetValuePair"),
  (0xB4817F16, "Game::RefObjNavNode"),
  (0x9814426F, "Game::HUDAIOptionsNavNode"),
  (0xFEF082C0, "Game::SetupOptionsNavNode"),
  (0x867C38FB, "Game::MeleeOptionsNavNode"),
  (0xE052070C, "Game::FunctionalityNavNode"),
  (0xB1FEA000, "Game::InterfaceNavNode"),
  (0xEB23097E, "Game::InterfaceNavNodeStub"),
  (0xB1F1A848, "Game::NodeAffectGroup"),
  (0x989F638F, "Game::InterfaceLayout"),
  (0x8D8D20AF, "Game::HudModeOptions"),
  (0x80F28026, "Game::ShellCharacterSelectMenu"),
  (0x8E80ED27, "Game::HUDSummaryControl"),
  (0xB340E18E, "Game::ModelStatusIndicator"),
  (0x8C22A912, "Game::LockedListenerDisplay"),
  (0xBE43D77C, "Game::InWorldMenuWrap"),
  (0x925039C8, "Game::ModeCompletionDisplay"),
  (0xE67EDC5D, "Game::NavigationLock"),
  (0xFA62DC5F, "Game::BonusDisplayShellMenu"),
  (0xD3D31BCA, "Game::ModeClusterShellMenu"),
  (0xB54AECE0, "Game::NavNodeTree"),
  (0xFC3D7B19, "Game::InterfaceScrollMenu"),
  (0x86FD461A, "Game::InterfaceMenu"),
  (0xDE65F66B, "Game::SimpleKeyMapMenu"),
  (0xCDC3DA2A, "Game::InterfaceMenuStub"),
  (0xEF7ED5F8, "Game::ShellUnlockableDisplay"),
  (0xA030FE2E, "Game::LadderDisplay"),
  (0xA33B4949, "Game::TeamFlagDisplay"),
  (0xAA7A773A, "Game::ShellCharacterModelDisplay"),
  (0xC5C695F3, "Game::ModelDisplay"),
  (0xD6E5D622, "Game::InWorldModelDisplay"),
  (0xD1DAE777, "Game::InterfaceModel"),
  (0xEB380818, "Game::HudModeTimer"),
  (0xC68C22F6, "Game::HudWinPointDisplay"),
  (0xE69C6711, "Game::HudSimpleModeInfoDisplay"),
  (0x8658551B, "Game::ShellModeInfoDisplay"),
  (0xA41A1CBF, "Game::HudSimplePreGameDisplay"),
  (0xE1477CAA, "Game::HudWinningSoundPlayer"),
  (0xCE81A051, "Game::StringFlasher"),
  (0xB0DDCD53, "Game::HudPregameDisplay"),
  (0xB89D4E88, "Game::HudTeamInfoDisplay"),
  (0xFB0D4BAD, "Game::HudCharInfoDisplay"),
  (0x9A673874, "Game::HoldKeyDisplay"),
  (0x9B2226C1, "Game::HudMedalDisplay"),
  (0xEC78B39E, "Game::ItemScroll"),
  (0xE1628175, "Game::GameFunctionalInfoItem"),
  (0xFD228C46, "Game::GameProgressInfoItem"),
  (0xB01B337A, "Game::HudCharInfoItem"),
  (0xC86C7F68, "Game::PadUnplugMessage"),
  (0x9C3CE0FD, "Game::HudSlamUpdater"),
  (0xCF4F942A, "Game::HudCharacterDisplay"),
  (0xC23153CF, "Game::InterfaceDisplayObject"),
  (0x86D0ABC8, "Game::HudCinematic"),
  (0xFCA7D96F, "Game::HudMelee"),
  (0xA2CED9CB, "Game::Hud"),
  (0xF32EBBA9, "Game::LoadingScreen"),
  (0x8871A11D, "Game::ModeCluster"),
  (0xBBFB0554, "Game::ModeLoader"),
  (0xE2BB19C3, "Game::PlayerEntity"),
  (0xBB37EB43, "Game::LevelMaxCamera"),
  (0xC9B834D4, "Game::LevelCamera"),
  (0x80557E97, "Game::GlobalMachine"),
  (0xD2DD0436, "Game::EventPlayEventSequence"),
  (0xBD6065B6, "Game::EventItemSetState"),
  (0x9D678770, "Game::EventPropSetPositionOrientation"),
  (0xEEDE33E3, "Game::EventMultiEffect"),
  (0xF5773F48, "Game::EventEffectOnManyObjects"),
  (0xFE97C48F, "Game::EventEffect"),
  (0xAECA0CAF, "Game::EventCameraFov"),
  (0x90D38045, "Game::EventCameraLookAtPoint"),
  (0x958EB61D, "Game::EventCameraLookAt"),
  (0xD3A9A9EC, "Game::EventCameraPositionPoint"),
  (0xBF0B9630, "Game::EventCameraPosition"),
  (0x97CFF398, "Game::EventCameraFinish"),
  (0xBA5E750F, "Game::EventCameraMaxCamTarget"),
  (0x8BFF848A, "Game::EventCameraMaxCamPosition"),
  (0xD3BE5E08, "Game::EventCameraMaxCam"),
  (0x89D80CDE, "Game::EventEntityQuickSetPositionOrient"),
  (0x8692ADA7, "Game::EventEntityTeleport"),
  (0xF45CC1B2, "Game::EventEntitySetOrient"),
  (0xB33BB7A2, "Game::EventEntitySetPosition"),
  (0xA807E1CF, "Game::EventEntityClearState"),
  (0xEF5EDD84, "Game::EventEntitySetState"),
  (0x985426D7, "Game::EventEntityPropDrop"),
  (0xF566CFD5, "Game::EventEntityPropGet"),
  (0xAB2F2611, "Game::EventChangeDestructibleObjectReset"),
  (0x9C624EE2, "Game::EventHavokObjectsReset"),
  (0xDB677D68, "Game::EventHavokObjectsUnhide"),
  (0xEC786CEC, "Game::EventHavokObjectsHide"),
  (0xFD5EEBD3, "Game::EventEnableItemTriggers"),
  (0x9251F413, "Game::EventDisableItemTriggers"),
  (0xFB2FDAAE, "Game::EventEnableTriggers"),
  (0xEA393FDD, "Game::EventDisableTriggers"),
  (0xBF77C223, "Game::EventEnableForceBoxes"),
  (0xAF35D0B8, "Game::EventDisableForceBoxes"),
  (0x8C19C6DD, "Game::EventObjectsAnimateUnpause"),
  (0xB3C1DD97, "Game::EventObjectsAnimateStop"),
  (0x814BA01B, "Game::EventObjectsAnimatePause"),
  (0xD7BF7C1A, "Game::EventObjectsAnimate"),
  (0xE079C55E, "Game::EventObjectsUnhide"),
  (0xF554CA7A, "Game::EventObjectsHide"),
  (0xCF336940, "Game::EventObjectsAll"),
  (0x85A7CD91, "Game::EventPlayWinSound"),
  (0xBBAF5F9D, "Game::EventPlayNameSound"),
  (0x88285AEF, "Game::EventStopSound"),
  (0xD04786EE, "Game::EventPlaySound"),
  (0xC73A0BB0, "Game::EventPrintOnScreen"),
  (0xD19046F4, "Game::EventResetHitPointObject"),
  (0xB1CDBFF2, "Game::EventDisableEventSpawnItems"),
  (0xC23A0700, "Game::EventSetDeflectionIncrease"),
  (0xFFE78054, "Game::EventChangeTargetType"),
  (0xDEA43CED, "Game::EventAddTargetObject"),
  (0xBA5D2FE7, "Game::EventPrintDebug"),
  (0xFCBD44E9, "Game::EventPlayerControl"),
  (0xF0777087, "Game::EventLight"),
  (0xD0B41C30, "Game::EventFontTex"),
  (0xA0C4CCF3, "Game::FontTexTemplateForEvent"),
  (0xE97A532F, "Game::EventTexBox"),
  (0xDCDB4F7B, "Game::EventFontBoxALT"),
  (0xE33D9AD2, "Game::EventFontBox"),
  (0xFD7AA25C, "Game::EventFade"),
  (0xF2A82C9C, "Game::EventPlayMovie"),
  (0xD68DEB1F, "Game::EventEnableDisableItemSpawner"),
  (0xD9DEB13E, "Game::EventModifyPower"),
  (0xD1E75823, "Game::EventKillPlayer"),
  (0xBF14BCC9, "Game::EventSpawnItemAtPlayer"),
  (0xEC1ED504, "Game::EventSpawnItem"),
  (0xEA0AF8D0, "Game::EventAIAllSettings"),
  (0xE3EA7633, "Game::EventAISettings"),
  (0xE8FB3826, "Game::EventAIHate"),
  (0xBCC650F7, "Game::Event"),
  (0xD24634FE, "Game::EventSequence"),
  (0xDDEC024E, "Game::Entity"),
  (0xC43D420D, "Game::EffectStringReference"),
  (0xA5B6016D, "Game::EffectManager"),
  (0xA6D66BE7, "Game::DynamicDataTimedEffects"),
  (0xF56BAEBA, "Game::EffectID"),
  (0xA3328A2B, "Game::DynamicRumbleEffectData"),
  (0xE8A85BC2, "Game::EffectRumbleType"),
  (0xF2EAF975, "Game::DynamicGlowEffectData"),
  (0xAED1C71E, "Game::EffectGlowType"),
  (0xEF73FDE0, "Game::DynamicParticleParams"),
  (0xA8A46E1D, "Game::EmitterType"),
  (0x831A6FB2, "Game::Trail"),
  (0xE2B181D0, "Game::TrailTypeB"),
  (0x9CC93660, "Game::TrailUniversalParameters"),
  (0x9435ED21, "Game::TrailBoneParameters"),
  (0xABA8D22E, "Game::TrailType"),
  (0xD56B4E12, "Game::DynamicCameraShakeEffectData"),
  (0xB9CFC0B1, "Game::EffectCamShakeType"),
  (0xD95188A4, "Game::DynamicLightEffectData"),
  (0xC51D687B, "Game::EffectLightType"),
  (0xC9F7CE39, "Game::DynamicColorEffectData"),
  (0xBE58F418, "Game::EffectFadeOpacity"),
  (0xD90CF408, "Game::EffectColorType"),
  (0xC38D0E39, "Game::DynamicSoundEffectData"),
  (0xAD86077D, "Game::EffectSound"),
  (0xC0EC833E, "Game::DynamicScaleEffectData"),
  (0xA3B2F988, "Game::EffectScale"),
  (0x9C5FF9AA, "Game::DynamicEffectDataParams"),
  (0x8A47CEC1, "Game::EffectOnEffect"),
  (0x8B525DE2, "Game::OrbiterType"),
  (0xFA4BBEA6, "Game::EffectCloneMesh"),
  (0xA282EE26, "Game::EffectType"),
  (0xFC0B6BE4, "Game::z_mesh_common_class_do_not_use"),
  (0xAC440797, "Game::EffectBase"),
  (0xC8E0C03F, "Game::DynamicThrowable"),
  (0x9E577451, "Game::Throwable"),
  (0xD6EADC7A, "Game::ThrowableType"),
  (0xCE151AE3, "Game::Powerup"),
  (0xBE7B44BA, "Game::PowerupType"),
  (0xF1E8852E, "Game::Potion"),
  (0xF05C7BD3, "Game::PotionType"),
  (0xD0EB4C91, "Game::Weapon"),
  (0xFE392AB6, "Game::WeaponType"),
  (0xB85D4A76, "Game::Prop"),
  (0x9CE2D8DC, "Game::PropType"),
  (0xC6864C7D, "Game::Item"),
  (0xC888B0E5, "Game::ItemType"),
  (0xF193ED57, "Game::Projectile"),
  (0x8811292E, "Game::ProjectileType"),
  (0xF12F7B1F, "Game::Target"),
  (0xACF81788, "Game::camManager"),
  (0x8F5B2D4A, "Game::camLevelSpec"),
  (0xC8A6232B, "Game::camBehaviorTrackEntity"),
  (0xA202922A, "Game::camBehaviorFourPlayer"),
  (0xFF434612, "Game::camBehaviorThreeAngle"),
  (0x8CF16624, "Game::camBehaviorThreeAngleClone"),
  (0x9B6514FB, "Game::camBehaviorFixedCam"),
  (0xB69429AD, "Game::camBehaviorCombatSimple"),
  (0xC81F5CEF, "Game::camBehaviorChase"),
  (0x87A280B4, "Game::camBehaviorOrbit"),
  (0x85DD409E, "Game::camBehaviorOffset"),
  (0x8B03BBB2, "Game::camBehaviorStatic"),
  (0xB8B20936, "Game::camBehaviorVert"),
  (0xB922A6DE, "Game::camBehavior"),
  (0xDDDDCA20, "Game::Mark"),
  (0xD306D805, "Game::BehaviorFightingControlShrek"),
  (0xDB77A1E2, "Game::Behavior"),
  (0xC7A5FA2C, "Game::MedalDisplay"),
  (0xF04367CA, "Game::TrophyInitializer"),
  (0x8FC1A7A3, "Game::MedalRewardStat"),
  (0xBA5D16BE, "Game::MedalRewardEvent"),
  (0xA2275A8C, "Game::Medal"),
  (0xA319D47F, "Game::Trophy"),
  (0xC5ABEF06, "Game::NavGraph"),
  (0xADA7C902, "Game::NavResult"),
  (0xD3563F1D, "Game::NavArea"),
  (0xA27701A8, "Game::NavAreaLink"),
  (0xAC0932FD, "Game::NavSplineLink"),
  (0x80DBAFCF, "Game::NavLink"),
  (0xE2AD9980, "Game::BehaviorAIFighting"),
  (0x910EDFA6, "Game::PlanThread"),
  (0x9B2B1A2E, "Game::AIParams"),
  (0xFE2687CC, "Game::BehaviorElement"),
  (0xF22F1C64, "Game::MovementParams"),
  (0xE523E5DC, "Game::ComboSpecParams"),
  (0xA824A923, "Game::AttackChoice"),
  (0xEDF80CFE, "Game::AIAttackFilter"),
  (0xCECA960A, "Game::ResponseCurve"),
  (0xE2371B05, "Game::StrategySet"),
  (0xFC9F4683, "Game::Strategy"),
  (0x847B38C6, "Game::FitnessFunction"),
  (0xDB39AF73, "Game::FitnessFunctionElement"),
  (0xC3D11ABB, "Game::PlanElement"),
  (0xE92DC70E, "Game::AIPerception"),
  (0xD97760D6, "gf::Object"),
  (0xBFC7788D, "gf::LocalizedString"),
  (0xA128E61A, "GF_TEMP::ScriptDB"),
  (0xCA75C29D, "GF_TEMP::HandyObject"),
  (0x9B3DDBED, "gf::DB"),
  (0xD9BB3F0F, "anim::LookatData"),
  (0xA3F86286, "render::SplineInstance"),
  (0xDEEEEA98, "render::DirectionalEmitter"),
  (0xDEEC048D, "render::DiskEmitter"),
  (0xA1BE9F14, "render::SphericalEmitter"),
  (0xFF156AC3, "render::PartSysFXEmitterDesc"),
  (0x890ED3DE, "render::LightInstance"),
  (0xFD7247FC, "render::FITLoader"),
  (0xABBF44AB, "render::FITex"),
  (0xA9B7911F, "render::TexBoxSimple"),
  (0xF0D52087, "render::TexBoxALT"),
  (0xC33EF61E, "render::FontBoxALT"),
  (0xDEF96960, "render::FontBox"),
  (0x87810BFF, "render::TexBox"),
  (0xB8425678, "render::InterfaceBox"),
  (0xFD7DDE8C, "render::FontStringManager"),
  (0xC4A179E2, "render::FontString"),
  (0xEF562E2E, "render::FontStyle"),
  (0xF89C5168, "render::FontManager"),
  (0xA4E55832, "render::FontLoader"),
  (0xFD02A278, "render::MaxCamera"),
  (0xCBD51018, "render::Camera"),
  (0xC51F1BDA, "render::BoxInstance"),
  (0xE5E23CC9, "render::AuxiliaryObject"),
  (0xCCEB6FFA, "bin::Object"),
  (0xE13BE71C, "core::ObjCollection")]

/-- `hash_lookup` (`src/classes/mod.rs` lines 135-527): the static
registry mapping a class-name hash to its class name.  The source is one
big `match` on the hash with a `None` fallback; it is modelled as
first-match lookup in the table of its arms (the keys are distinct, so
the semantics coincide). -/
def hash_lookup (hash : Nat) : Option String :=
  (hash_registry.lookup hash)

/-! ## Error types (src/classes/error.rs, src/errors.rs) -/

/-- `classes::Error` (`src/classes/error.rs` lines 7-18). -/
inductive ClassError where
  | NotEnoughBytes (requested : Nat) (file_size : Nat) (offset : Nat)
  | IncorrectType (hash : Nat)
deriving DecidableEq

/-- The top-level `errors::Error` (`src/errors.rs`).  The `io::Error` and
`Cow` payloads of the last four variants carry no information the library
inspects and are dropped. -/
inductive Error where
  | ClassDeserialiseError (e : ClassError)
  | ConsoleNumberError
  | FileError
  | StringDeserialiseError
  | NotImplementedError (name : String)
deriving DecidableEq

/-- Result of running a fallible Rust function: a normal return, an
`Err` value, or a panic (out-of-bounds index or slice, `unwrap` of an
error). -/
inductive Outcome (α : Type) where
  | ok (value : α)
  | err (e : Error)
  | panic
deriving DecidableEq

/-- Sequencing of fallible Rust computations: `?` propagates an `Err`,
and a panic unwinds past everything. -/
def Outcome.bind : Outcome α → (α → Outcome β) → Outcome β
  | .ok a, f => f a
  | .err e, _ => .err e
  | .panic, _ => .panic

instance : Monad Outcome where
  pure := Outcome.ok
  bind := Outcome.bind

/-- `Result::unwrap`: a panic unless the value is `ok`. -/
def Outcome.unwrap : Outcome α → Outcome α
  | .ok a => .ok a
  | _ => .panic

theorem Outcome.ok_bind (a : α) (f : α → Outcome β) :
    (Outcome.ok a >>= f) = f a := rfl

theorem Outcome.err_bind (e : Error) (f : α → Outcome β) :
    ((Outcome.err e : Outcome α) >>= f) = Outcome.err e := rfl

theorem Outcome.panic_bind (f : α → Outcome β) :
    ((Outcome.panic : Outcome α) >>= f) = Outcome.panic := rfl

/-! ## Byte-buffer primitives

Rust `Vec<u8>` buffers are `List Nat`.  Slicing `&raw[a..b]` and
`Vec::splice` panic when the range is invalid; single-element indexing
panics when out of bounds. -/

/-- `&raw[a..b]`: panics unless `a ≤ b ≤ raw.len()`. -/
def sliceList (raw : List Nat) (a b : Nat) : Outcome (List Nat) :=
  if a ≤ b ∧ b ≤ raw.length then .ok ((raw.drop a).take (b - a)) else .panic

/-- `raw.splice(a..b, repl)` where `repl` has any length: panics unless
`a ≤ b ≤ raw.len()`; replaces the range by `repl`. -/
def spliceList (raw : List Nat) (a b : Nat) (repl : List Nat) :
    Outcome (List Nat) :=
  if a ≤ b ∧ b ≤ raw.length then .ok (raw.take a ++ repl ++ raw.drop b)
  else .panic

/-- `raw[i]`: panics when out of bounds. -/
def indexByte (raw : List Nat) (i : Nat) : Outcome Nat :=
  match raw[i]? with
  | some b => .ok b
  | none => .panic

/-! ## Platform codec (src/console.rs) -/

/-- `Console` (`src/console.rs` lines 10-15). -/
inductive Console where
  | Gamecube
  | PC
  | PS2
  | Xbox
deriving DecidableEq

/-- `Console::read_u32` (`src/console.rs` lines 27-39): an error when
fewer than 4 bytes are supplied, otherwise the big-endian (Gamecube) or
little-endian (all others) value of the first 4 bytes. -/
def Console.read_u32 (console : Console) (bytes : List Nat) : Outcome Nat :=
  if bytes.length < 4 then .err .ConsoleNumberError
  else
    match console with
    | .Gamecube =>
      .ok (((bytes.getD 0 0 * 256 + bytes.getD 1 0) * 256 +
        bytes.getD 2 0) * 256 + bytes.getD 3 0)
    | _ =>
      .ok (((bytes.getD 3 0 * 256 + bytes.getD 2 0) * 256 +
        bytes.getD 1 0) * 256 + bytes.getD 0 0)

/-- `Console::write_u32` (`src/console.rs` lines 52-60): the 4 bytes of
the value in the console's byte order (writing into a `Vec` cannot
fail). -/
def Console.write_u32 (console : Console) (n : Nat) : Outcome (List Nat) :=
  match console with
  | .Gamecube => .ok [n / 2 ^ 24 % 256, n / 2 ^ 16 % 256, n / 2 ^ 8 % 256,
      n % 256]
  | _ => .ok [n % 256, n / 2 ^ 8 % 256, n / 2 ^ 16 % 256, n / 2 ^ 24 % 256]

/-- `Console::read_f32` (`src/console.rs` lines 71-83).  An `f32` is
modelled by its 32-bit pattern: `byteorder`'s `read_f32` is
`f32::from_bits` of the `u32` read the same way, and `from_bits`/
`to_bits` preserve the bits exactly, so at the byte level the float
codec coincides with the integer codec. -/
def Console.read_f32 (console : Console) (bytes : List Nat) : Outcome Nat :=
  console.read_u32 bytes

/-- `Console::write_f32` (`src/console.rs` lines 96-104), on the 32-bit
pattern (see `Console.read_f32`). -/
def Console.write_f32 (console : Console) (n : Nat) : Outcome (List Nat) :=
  console.write_u32 n

/-- `console.read_u32(&raw[a..b])`, the pervasive read pattern. -/
def read_u32_at (console : Console) (raw : List Nat) (a b : Nat) :
    Outcome Nat := do
  let s ← sliceList raw a b
  console.read_u32 s

/-- `console.read_f32(&raw[a..b])` (same bytes as `read_u32_at`, see
`Console.read_f32`). -/
def read_f32_at (console : Console) (raw : List Nat) (a b : Nat) :
    Outcome Nat :=
  read_u32_at console raw a b

/-- `b as u8` for a Rust `bool`. -/
def bool_as_u8 (b : Bool) : Nat := if b then 1 else 0

/-- `b as i8` for a byte. -/
def u8_as_i8 (b : Nat) : Int := if b < 128 then (b : Int) else (b : Int) - 256

/-- `n as u8` for an `i8` value. -/
def i8_as_u8 (n : Int) : Nat := (n % 256).toNat

/-- `Iterator::position`: the index of the first element satisfying the
predicate, if any. -/
def position (p : Nat → Bool) : List Nat → Option Nat
  | [] => none
  | b :: rest => if p b then some 0 else (position p rest).map (fun i => i + 1)

/-! ## .bin container (src/files/bin.rs) -/

/-- `BinObject` (`src/files/bin.rs` lines 67-76). -/
structure BinObject where
  hash : Nat
  name : String
  offset : Nat
deriving DecidableEq

/-- `Bin` (`src/files/bin.rs` lines 110-114). -/
structure Bin where
  objects : List BinObject
  console : Console
  raw : List Nat
deriving DecidableEq

/-- `Bin::header_length` (`src/files/bin.rs` lines 118-120). -/
def Bin.header_length : Nat := 0x40

/-- `BinObject::new` (`src/files/bin.rs` lines 81-95): read the hash at
the relocated offset and look it up in the registry; a registry miss is
reported as `IncorrectType`. -/
def BinObject.new (raw : List Nat) (offset : Nat) (console : Console) :
    Outcome BinObject := do
  let hash ← read_u32_at console raw (Bin.header_length + offset)
    (Bin.header_length + offset + 0x04)
  match hash_lookup hash with
  | some name => Outcome.ok { hash := hash, name := name, offset := offset }
  | none => Outcome.err (.ClassDeserialiseError (.IncorrectType hash))

/-- `Bin::get_str_from_offset` (`src/files/bin.rs` lines 306-318): find
the first NUL from the relocated offset (defaulting to size 0 when there
is none) and decode the bytes before it as ISO 8859-1 (each byte is the
equally-numbered Unicode code point, so decoding never fails). -/
def Bin.get_str_from_offset (bin : Bin) (offset : Nat) : Outcome String := do
  let str_begin := offset + Bin.header_length
  let slice ← sliceList bin.raw str_begin bin.raw.length
  let size := (position (fun b => b == 0x00) slice).getD 0
  let bytes ← sliceList bin.raw str_begin (str_begin + size)
  Outcome.ok (String.mk (bytes.map (fun b => Char.ofNat b)))

/-- The `SerialisedShrekSuperSlamGameObject` trait
(`src/classes/mod.rs`): a class hash, a serialised size, and a
constructor. -/
structure GameObjectClass (α : Type) where
  hash : Nat
  size : Nat
  new : Bin → Nat → Outcome α

/-- The `WriteableShrekSuperSlamGameObject` trait
(`src/classes/mod.rs`): writes the object back at an offset, mutating
the buffer. -/
structure WriteableGameObjectClass (α : Type) where
  write : α → Bin → Nat → Outcome Bin

/-- `Bin::get_object_from_offset` (`src/files/bin.rs` lines 258-285):
the size guard (which compares `offset + size` against the buffer length
without the header relocation), then the hash check at the relocated
offset, then the class constructor. -/
def Bin.get_object_from_offset (bin : Bin) (T : GameObjectClass α)
    (offset : Nat) : Outcome α :=
  if offset + T.size > bin.raw.length then
    Outcome.err (.ClassDeserialiseError
      (.NotEnoughBytes T.size bin.raw.length offset))
  else do
    let object_begin := offset + Bin.header_length
    let hash ← read_u32_at bin.console bin.raw object_begin (object_begin + 4)
    if hash ≠ T.hash then
      Outcome.err (.ClassDeserialiseError (.IncorrectType hash))
    else T.new bin object_begin

/-- `Bin::overwrite_object` (`src/files/bin.rs` lines 342-359): check
the hash at the relocated offset, then delegate to the class's
`write`. -/
def Bin.overwrite_object (bin : Bin) (T : GameObjectClass α)
    (W : WriteableGameObjectClass α) (offset : Nat) (object : α) :
    Outcome Bin := do
  let object_begin := offset + Bin.header_length
  let hash ← read_u32_at bin.console bin.raw object_begin (object_begin + 4)
  if hash ≠ T.hash then
    Outcome.err (.ClassDeserialiseError (.IncorrectType hash))
  else W.write object bin object_begin

/-- `bin.raw.splice(a..b, console.write_f32(v)?)`, the write pattern of
every fixed-offset float field. -/
def Bin.splice_f32 (bin : Bin) (a b : Nat) (v : Nat) : Outcome Bin := do
  let bytes ← bin.console.write_f32 v
  let raw2 ← spliceList bin.raw a b bytes
  Outcome.ok { bin with raw := raw2 }

/-- `bin.raw.splice(a..b, console.write_u32(v)?)`. -/
def Bin.splice_u32 (bin : Bin) (a b : Nat) (v : Nat) : Outcome Bin := do
  let bytes ← bin.console.write_u32 v
  let raw2 ← spliceList bin.raw a b bytes
  Outcome.ok { bin with raw := raw2 }

/-- `bin.raw[i] = v`: panics when out of bounds. -/
def Bin.write_byte (bin : Bin) (i v : Nat) : Outcome Bin :=
  if i < bin.raw.length then .ok { bin with raw := bin.raw.set i v }
  else .panic

/-! ## Game::AttackMoveRegion and Game::ProjectileType
(src/classes/player/attacks.rs) -/

/-- `AttackMoveRegion` (`src/classes/player/attacks.rs` lines 760-776);
float fields hold 32-bit patterns. -/
structure AttackMoveRegion where
  delay : Nat
  width : Nat
  radius : Nat
  unknown_010 : Nat
  unknown_024 : Nat
deriving DecidableEq

/-- `AttackMoveRegion::new` (`src/classes/player/attacks.rs` lines
801-811). -/
def AttackMoveRegion.new (bin : Bin) (offset : Nat) :
    Outcome AttackMoveRegion := do
  let c := bin.console
  let delay ← read_f32_at c bin.raw (offset + 0x04) (offset + 0x08)
  let width ← read_f32_at c bin.raw (offset + 0x30) (offset + 0x34)
  let radius ← read_f32_at c bin.raw (offset + 0x38) (offset + 0x3C)
  let unknown_010 ← read_f32_at c bin.raw (offset + 0x10) (offset + 0x14)
  let unknown_024 ← read_f32_at c bin.raw (offset + 0x24) (offset + 0x28)
  Outcome.ok { delay, width, radius, unknown_010, unknown_024 }

/-- `AttackMoveRegion::write` (`src/classes/player/attacks.rs` lines
833-851). -/
def AttackMoveRegion.write (self : AttackMoveRegion) (bin : Bin)
    (offset : Nat) : Outcome Bin := do
  let b1 ← bin.splice_f32 (offset + 0x04) (offset + 0x08) self.delay
  let b2 ← b1.splice_f32 (offset + 0x30) (offset + 0x34) self.width
  let b3 ← b2.splice_f32 (offset + 0x38) (offset + 0x3C) self.radius
  let b4 ← b3.splice_f32 (offset + 0x10) (offset + 0x14) self.unknown_010
  let b5 ← b4.splice_f32 (offset + 0x24) (offset + 0x28) self.unknown_024
  Outcome.ok b5

/-- The `SerialisedShrekSuperSlamGameObject` impl for `AttackMoveRegion`
(`src/classes/player/attacks.rs` lines 778-812): hash `0xF2CFE08D`, size
`0x40`. -/
def AttackMoveRegionClass : GameObjectClass AttackMoveRegion :=
  { hash := 0xF2CFE08D, size := 0x40, new := AttackMoveRegion.new }

/-- `ProjectileType` (`src/classes/player/attacks.rs` lines 660-678). -/
structure ProjectileType where
  x_vector : Nat
  angle : Nat
  arc : Nat
  homing1 : Nat
  homing2 : Nat
  homing3 : Nat
deriving DecidableEq

/-- `ProjectileType::new` (`src/classes/player/attacks.rs` lines
703-714). -/
def ProjectileType.new (bin : Bin) (offset : Nat) :
    Outcome ProjectileType := do
  let c := bin.console
  let x_vector ← read_f32_at c bin.raw (offset + 0x08) (offset + 0x0C)
  let angle ← read_f32_at c bin.raw (offset + 0x14) (offset + 0x18)
  let arc ← read_f32_at c bin.raw (offset + 0x18) (offset + 0x1C)
  let homing1 ← read_f32_at c bin.raw (offset + 0x44) (offset + 0x48)
  let homing2 ← read_f32_at c bin.raw (offset + 0x48) (offset + 0x4C)
  let homing3 ← read_f32_at c bin.raw (offset + 0x4C) (offset + 0x50)
  Outcome.ok { x_vector, angle, arc, homing1, homing2, homing3 }

/-- `ProjectileType::write` (`src/classes/player/attacks.rs` lines
735-754). -/
def ProjectileType.write (self : ProjectileType) (bin : Bin)
    (offset : Nat) : Outcome Bin := do
  let b1 ← bin.splice_f32 (offset + 0x08) (offset + 0x0C) self.x_vector
  let b2 ← b1.splice_f32 (offset + 0x14) (offset + 0x18) self.angle
  let b3 ← b2.splice_f32 (offset + 0x18) (offset + 0x1C) self.arc
  let b4 ← b3.splice_f32 (offset + 0x44) (offset + 0x48) self.homing1
  let b5 ← b4.splice_f32 (offset + 0x48) (offset + 0x4C) self.homing2
  let b6 ← b5.splice_f32 (offset + 0x4C) (offset + 0x50) self.homing3
  Outcome.ok b6

/-- The `SerialisedShrekSuperSlamGameObject` impl for `ProjectileType`
(`src/classes/player/attacks.rs` lines 680-715): hash `0x8811292E`, size
`0x74`. -/
def ProjectileTypeClass : GameObjectClass ProjectileType :=
  { hash := 0x8811292E, size := 0x74, new := ProjectileType.new }

/-! ## Game::AttackMoveType (src/classes/player/attacks.rs) -/

/-- `AttackMoveType` (`src/classes/player/attacks.rs` lines 12-239), in
source field order; float fields hold 32-bit patterns. -/
structure AttackMoveType where
  aim_range : Nat
  charge : Nat
  charge_effect : Nat
  damage1 : Nat
  damage2 : Nat
  damage3 : Nat
  disabled : Bool
  endlag : Nat
  fall_speed : Nat
  hitboxes : List AttackMoveRegion
  hits_otg : Bool
  intangible : Bool
  invincibility : Nat
  is_slam : Bool
  knockback : Nat
  knocks_down : Bool
  lock_position : Bool
  multi_hit_speed : Nat
  name : String
  no_opponent_contact : Bool
  projectile : Option ProjectileType
  shield_breaks : Bool
  stun : Nat
  unknown_008 : Nat
  unknown_010 : Nat
  unknown_018 : Nat
  unknown_02d : Bool
  unknown_02f : Bool
  unknown_030 : Bool
  unknown_036 : Bool
  unknown_037 : Bool
  unknown_038 : Bool
  unknown_039 : Bool
  unknown_03c : Nat
  unknown_040 : Bool
  unknown_041 : Bool
  unknown_042 : Bool
  unknown_043 : Bool
  unknown_044 : Bool
  unknown_045_max_255 : Nat
  unknown_046_max_128 : Int
  unknown_047 : Bool
  unknown_049_does_something_if_5_max_value_255 : Nat
  unknown_04a : Bool
  unknown_04b : Bool
  unknown_070 : Nat
  unknown_078 : Nat
  unknown_07c : Nat
  unknown_090 : Nat
  unknown_0a8 : Nat
  unknown_0b0 : Nat
  unknown_0b4 : Nat
  unknown_0b8 : Nat
  unknown_0bc : Nat
  unknown_0c0_shielded_opponent_horizontal_vector : Nat
  unknown_0c4 : Nat
  unknown_0d8 : Nat
  unknown_0dc : Nat
  unknown_0e0 : Nat
  unknown_0e4 : Nat
  unknown_0e8 : Nat
  unknown_0ec : Nat
  unknown_120 : Nat
  unknown_124 : Nat
  unknown_128 : Nat
  unknown_12c : Nat
  unknown_130 : Nat
  unknown_134 : Nat
  unknown_138 : Nat
  unknown_13c : Nat
  hitbox_offsets : List Nat
  projectile_offset : Option Nat
deriving DecidableEq

/-- `AttackMoveType::number_of_hitboxes` (`src/classes/player/attacks.rs`
lines 651-653). -/
def AttackMoveType.number_of_hitboxes (raw : List Nat) (offset : Nat)
    (console : Console) : Outcome Nat :=
  read_u32_at console raw (offset + 0x24) (offset + 0x28)

/-- `AttackMoveType::hitbox_offsets` (`src/classes/player/attacks.rs`
lines 620-638), renamed because the struct already has a field of this
name: read the hitbox count at `+0x24` and the table offset at `+0x20`,
then read each file-relative hitbox offset from the relocated table. -/
def AttackMoveType.read_hitbox_offsets (raw : List Nat) (offset : Nat)
    (console : Console) : Outcome (List Nat) := do
  let num ← AttackMoveType.number_of_hitboxes raw offset console
  let regions_offset ← read_u32_at console raw (offset + 0x20) (offset + 0x24)
  (List.range num).mapM (fun i =>
    read_u32_at console raw (regions_offset + Bin.header_length + i * 4)
      (regions_offset + Bin.header_length + i * 4 + 4))


/-- `AttackMoveType::new` (`src/classes/player/attacks.rs` lines
264-434), reads in source order. -/
def AttackMoveType.new (bin : Bin) (offset : Nat) :
    Outcome AttackMoveType := do
  let raw := bin.raw
  let c := bin.console
  let endlag ← read_f32_at c raw (offset + 0x04) (offset + 0x08)
  let invincibility ← read_f32_at c raw (offset + 0x0C) (offset + 0x10)
  let fall_speed ← read_f32_at c raw (offset + 0x14) (offset + 0x18)
  let name_offset ← read_u32_at c raw (offset + 0x28) (offset + 0x2C)
  let aim_range ← read_f32_at c raw (offset + 0x74) (offset + 0x78)
  let damage1 ← read_f32_at c raw (offset + 0x84) (offset + 0x88)
  let damage2 ← read_f32_at c raw (offset + 0x88) (offset + 0x8C)
  let damage3 ← read_f32_at c raw (offset + 0x8C) (offset + 0x90)
  let charge_effect ← read_f32_at c raw (offset + 0x94) (offset + 0x98)
  let charge ← read_f32_at c raw (offset + 0x98) (offset + 0x9C)
  let multi_hit_speed ← read_f32_at c raw (offset + 0xA0) (offset + 0xA4)
  let stun ← read_f32_at c raw (offset + 0xA4) (offset + 0xA8)
  let knockback ← read_f32_at c raw (offset + 0xAC) (offset + 0xB0)
  let unknown_008 ← read_f32_at c raw (offset + 0x08) (offset + 0x0C)
  let unknown_010 ← read_f32_at c raw (offset + 0x10) (offset + 0x14)
  let unknown_018 ← read_f32_at c raw (offset + 0x18) (offset + 0x1C)
  let unknown_03c ← read_u32_at c raw (offset + 0x3C) (offset + 0x40)
  let unknown_070 ← read_f32_at c raw (offset + 0x70) (offset + 0x74)
  let unknown_078 ← read_f32_at c raw (offset + 0x78) (offset + 0x7C)
  let unknown_07c ← read_f32_at c raw (offset + 0x7C) (offset + 0x80)
  let unknown_090 ← read_f32_at c raw (offset + 0x90) (offset + 0x94)
  let unknown_0a8 ← read_f32_at c raw (offset + 0xA8) (offset + 0xAC)
  let unknown_0b0 ← read_f32_at c raw (offset + 0xB0) (offset + 0xB4)
  let unknown_0b4 ← read_f32_at c raw (offset + 0xB4) (offset + 0xB8)
  let unknown_0b8 ← read_f32_at c raw (offset + 0xB8) (offset + 0xBC)
  let unknown_0bc ← read_f32_at c raw (offset + 0xBC) (offset + 0xC0)
  let unknown_0c0 ← read_f32_at c raw (offset + 0xC0) (offset + 0xC4)
  let unknown_0c4 ← read_f32_at c raw (offset + 0xC4) (offset + 0xC8)
  let unknown_0d8 ← read_f32_at c raw (offset + 0xD8) (offset + 0xDC)
  let unknown_0dc ← read_f32_at c raw (offset + 0xDC) (offset + 0xE0)
  let unknown_0e0 ← read_f32_at c raw (offset + 0xE0) (offset + 0xE4)
  let unknown_0e4 ← read_f32_at c raw (offset + 0xE4) (offset + 0xE8)
  let unknown_0e8 ← read_f32_at c raw (offset + 0xE8) (offset + 0xEC)
  let unknown_0ec ← read_f32_at c raw (offset + 0xEC) (offset + 0xF0)
  let unknown_120 ← read_f32_at c raw (offset + 0x120) (offset + 0x124)
  let unknown_124 ← read_f32_at c raw (offset + 0x124) (offset + 0x128)
  let unknown_128 ← read_f32_at c raw (offset + 0x128) (offset + 0x12C)
  let unknown_12c ← read_f32_at c raw (offset + 0x12C) (offset + 0x130)
  let unknown_130 ← read_f32_at c raw (offset + 0x130) (offset + 0x134)
  let unknown_134 ← read_f32_at c raw (offset + 0x134) (offset + 0x138)
  let unknown_138 ← read_f32_at c raw (offset + 0x138) (offset + 0x13C)
  let unknown_13c ← read_f32_at c raw (offset + 0x13C) (offset + 0x140)
  let is_slam := (← indexByte raw (offset + 0x2C)) != 0
  let shield_breaks := (← indexByte raw (offset + 0x2E)) != 0
  let lock_position := (← indexByte raw (offset + 0x31)) != 0
  let no_opponent_contact := (← indexByte raw (offset + 0x32)) != 0
  let hits_otg := (← indexByte raw (offset + 0x33)) != 0
  let knocks_down := (← indexByte raw (offset + 0x34)) != 0
  let disabled := (← indexByte raw (offset + 0x35)) != 0
  let intangible := (← indexByte raw (offset + 0x3A)) != 0
  let unknown_02d := (← indexByte raw (offset + 0x2D)) != 0
  let unknown_02f := (← indexByte raw (offset + 0x2F)) != 0
  let unknown_030 := (← indexByte raw (offset + 0x30)) != 0
  let unknown_036 := (← indexByte raw (offset + 0x36)) != 0
  let unknown_037 := (← indexByte raw (offset + 0x37)) != 0
  let unknown_038 := (← indexByte raw (offset + 0x38)) != 0
  let unknown_039 := (← indexByte raw (offset + 0x39)) != 0
  let unknown_040 := (← indexByte raw (offset + 0x40)) != 0
  let unknown_041 := (← indexByte raw (offset + 0x41)) != 0
  let unknown_042 := (← indexByte raw (offset + 0x42)) != 0
  let unknown_043 := (← indexByte raw (offset + 0x43)) != 0
  let unknown_044 := (← indexByte raw (offset + 0x44)) != 0
  let unknown_045 ← indexByte raw (offset + 0x45)
  let unknown_046 := u8_as_i8 (← indexByte raw (offset + 0x46))
  let unknown_047 := (← indexByte raw (offset + 0x47)) != 0
  let unknown_049 ← indexByte raw (offset + 0x49)
  let unknown_04a := (← indexByte raw (offset + 0x4A)) != 0
  let unknown_04b := (← indexByte raw (offset + 0x4B)) != 0
  let projectile_offset_num ← read_u32_at c raw (offset + 0x9C) (offset + 0xA0)
  let projectile_offset :=
    if projectile_offset_num = 0 then none else some projectile_offset_num
  let projectile ←
    match projectile_offset with
    | none => Outcome.ok none
    | some o => do
      let p ← (bin.get_object_from_offset ProjectileTypeClass o).unwrap
      Outcome.ok (some p)
  let hitbox_offsets ← AttackMoveType.read_hitbox_offsets raw offset c
  let hitboxes ← hitbox_offsets.mapM (fun o =>
    (bin.get_object_from_offset AttackMoveRegionClass o).unwrap)
  let name ← bin.get_str_from_offset name_offset
  Outcome.ok {
    aim_range, charge, charge_effect, endlag, fall_speed,
    damage1, damage2, damage3, disabled, hitboxes, hits_otg, intangible,
    invincibility, is_slam, knocks_down, knockback, lock_position,
    multi_hit_speed, name, no_opponent_contact, projectile, shield_breaks,
    stun, hitbox_offsets, projectile_offset,
    unknown_008, unknown_010, unknown_018, unknown_02d, unknown_02f,
    unknown_030, unknown_036, unknown_037, unknown_038, unknown_039,
    unknown_03c, unknown_040, unknown_041, unknown_042, unknown_043,
    unknown_044,
    unknown_045_max_255 := unknown_045,
    unknown_046_max_128 := unknown_046,
    unknown_047,
    unknown_049_does_something_if_5_max_value_255 := unknown_049,
    unknown_04a, unknown_04b,
    unknown_070, unknown_078, unknown_07c, unknown_090, unknown_0a8,
    unknown_0b0, unknown_0b4, unknown_0b8, unknown_0bc,
    unknown_0c0_shielded_opponent_horizontal_vector := unknown_0c0,
    unknown_0c4, unknown_0d8, unknown_0dc, unknown_0e0, unknown_0e4,
    unknown_0e8, unknown_0ec, unknown_120, unknown_124, unknown_128,
    unknown_12c, unknown_130, unknown_134, unknown_138, unknown_13c }
/-- The body of the `for` loop at the end of `AttackMoveType::write`
(`src/classes/player/attacks.rs` lines 591-593): write each hitbox at
its zipped offset, in order. -/
def write_hitboxes : List (Nat × AttackMoveRegion) → Bin → Outcome Bin
  | [], bin => Outcome.ok bin
  | (o, h) :: rest, bin => do
    let bin2 ← AttackMoveRegion.write h bin o
    write_hitboxes rest bin2

/-- `AttackMoveType::write` (`src/classes/player/attacks.rs` lines
455-604), writes in source order: the fixed scalar fields, then the
hitboxes (re-deriving and relocating the offsets only when the buffer
holds more hitboxes than the object), then the projectile, if any. -/
def AttackMoveType.write (self : AttackMoveType) (bin : Bin)
    (offset : Nat) : Outcome Bin := do
  let b1 ← bin.splice_f32 (offset + 0x04) (offset + 0x08) self.endlag
  let b2 ← b1.splice_f32 (offset + 0x0C) (offset + 0x10) self.invincibility
  let b3 ← b2.splice_f32 (offset + 0x14) (offset + 0x18) self.fall_speed
  let b4 ← b3.write_byte (offset + 0x2C) (bool_as_u8 self.is_slam)
  let b5 ← b4.write_byte (offset + 0x2E) (bool_as_u8 self.shield_breaks)
  let b6 ← b5.write_byte (offset + 0x31) (bool_as_u8 self.lock_position)
  let b7 ← b6.write_byte (offset + 0x32) (bool_as_u8 self.no_opponent_contact)
  let b8 ← b7.write_byte (offset + 0x33) (bool_as_u8 self.hits_otg)
  let b9 ← b8.write_byte (offset + 0x34) (bool_as_u8 self.knocks_down)
  let b10 ← b9.write_byte (offset + 0x35) (bool_as_u8 self.disabled)
  let b11 ← b10.write_byte (offset + 0x3A) (bool_as_u8 self.intangible)
  let b12 ← b11.splice_f32 (offset + 0x74) (offset + 0x78) self.aim_range
  let b13 ← b12.splice_f32 (offset + 0x84) (offset + 0x88) self.damage1
  let b14 ← b13.splice_f32 (offset + 0x88) (offset + 0x8C) self.damage2
  let b15 ← b14.splice_f32 (offset + 0x8C) (offset + 0x90) self.damage3
  let b16 ← b15.splice_f32 (offset + 0x94) (offset + 0x98) self.charge_effect
  let b17 ← b16.splice_f32 (offset + 0x98) (offset + 0x9C) self.charge
  let b18 ← b17.splice_f32 (offset + 0xA0) (offset + 0xA4) self.multi_hit_speed
  let b19 ← b18.splice_f32 (offset + 0xA4) (offset + 0xA8) self.stun
  let b20 ← b19.splice_f32 (offset + 0xAC) (offset + 0xB0) self.knockback
  let b21 ← b20.splice_f32 (offset + 0x08) (offset + 0x0C) self.unknown_008
  let b22 ← b21.splice_f32 (offset + 0x10) (offset + 0x14) self.unknown_010
  let b23 ← b22.splice_f32 (offset + 0x18) (offset + 0x1C) self.unknown_018
  let b24 ← b23.splice_u32 (offset + 0x3C) (offset + 0x40) self.unknown_03c
  let b25 ← b24.splice_f32 (offset + 0x70) (offset + 0x74) self.unknown_070
  let b26 ← b25.splice_f32 (offset + 0x78) (offset + 0x7C) self.unknown_078
  let b27 ← b26.splice_f32 (offset + 0x7C) (offset + 0x80) self.unknown_07c
  let b28 ← b27.splice_f32 (offset + 0x90) (offset + 0x94) self.unknown_090
  let b29 ← b28.splice_f32 (offset + 0xA8) (offset + 0xAC) self.unknown_0a8
  let b30 ← b29.splice_f32 (offset + 0xB0) (offset + 0xB4) self.unknown_0b0
  let b31 ← b30.splice_f32 (offset + 0xB4) (offset + 0xB8) self.unknown_0b4
  let b32 ← b31.splice_f32 (offset + 0xB8) (offset + 0xBC) self.unknown_0b8
  let b33 ← b32.splice_f32 (offset + 0xBC) (offset + 0xC0) self.unknown_0bc
  let b34 ← b33.splice_f32 (offset + 0xC0) (offset + 0xC4) self.unknown_0c0_shielded_opponent_horizontal_vector
  let b35 ← b34.splice_f32 (offset + 0xC4) (offset + 0xC8) self.unknown_0c4
  let b36 ← b35.splice_f32 (offset + 0xD8) (offset + 0xDC) self.unknown_0d8
  let b37 ← b36.splice_f32 (offset + 0xDC) (offset + 0xE0) self.unknown_0dc
  let b38 ← b37.splice_f32 (offset + 0xE0) (offset + 0xE4) self.unknown_0e0
  let b39 ← b38.splice_f32 (offset + 0xE4) (offset + 0xE8) self.unknown_0e4
  let b40 ← b39.splice_f32 (offset + 0xE8) (offset + 0xEC) self.unknown_0e8
  let b41 ← b40.splice_f32 (offset + 0xEC) (offset + 0xF0) self.unknown_0ec
  let b42 ← b41.splice_f32 (offset + 0x120) (offset + 0x124) self.unknown_120
  let b43 ← b42.splice_f32 (offset + 0x124) (offset + 0x128) self.unknown_124
  let b44 ← b43.splice_f32 (offset + 0x128) (offset + 0x12C) self.unknown_128
  let b45 ← b44.splice_f32 (offset + 0x12C) (offset + 0x130) self.unknown_12c
  let b46 ← b45.splice_f32 (offset + 0x130) (offset + 0x134) self.unknown_130
  let b47 ← b46.splice_f32 (offset + 0x134) (offset + 0x138) self.unknown_134
  let b48 ← b47.splice_f32 (offset + 0x138) (offset + 0x13C) self.unknown_138
  let b49 ← b48.splice_f32 (offset + 0x13C) (offset + 0x140) self.unknown_13c
  let b50 ← b49.write_byte (offset + 0x2D) (bool_as_u8 self.unknown_02d)
  let b51 ← b50.write_byte (offset + 0x2F) (bool_as_u8 self.unknown_02f)
  let b52 ← b51.write_byte (offset + 0x30) (bool_as_u8 self.unknown_030)
  let b53 ← b52.write_byte (offset + 0x36) (bool_as_u8 self.unknown_036)
  let b54 ← b53.write_byte (offset + 0x37) (bool_as_u8 self.unknown_037)
  let b55 ← b54.write_byte (offset + 0x38) (bool_as_u8 self.unknown_038)
  let b56 ← b55.write_byte (offset + 0x39) (bool_as_u8 self.unknown_039)
  let b57 ← b56.write_byte (offset + 0x40) (bool_as_u8 self.unknown_040)
  let b58 ← b57.write_byte (offset + 0x41) (bool_as_u8 self.unknown_041)
  let b59 ← b58.write_byte (offset + 0x42) (bool_as_u8 self.unknown_042)
  let b60 ← b59.write_byte (offset + 0x43) (bool_as_u8 self.unknown_043)
  let b61 ← b60.write_byte (offset + 0x44) (bool_as_u8 self.unknown_044)
  let b62 ← b61.write_byte (offset + 0x45) (self.unknown_045_max_255)
  let b63 ← b62.write_byte (offset + 0x46) (i8_as_u8 self.unknown_046_max_128)
  let b64 ← b63.write_byte (offset + 0x47) (bool_as_u8 self.unknown_047)
  let b65 ← b64.write_byte (offset + 0x49) (self.unknown_049_does_something_if_5_max_value_255)
  let b66 ← b65.write_byte (offset + 0x4A) (bool_as_u8 self.unknown_04a)
  let b67 ← b66.write_byte (offset + 0x4B) (bool_as_u8 self.unknown_04b)
  let num ← AttackMoveType.number_of_hitboxes b67.raw offset b67.console
  let hitbox_offsets ←
    if num > self.hitbox_offsets.length then do
      let hs ← AttackMoveType.read_hitbox_offsets b67.raw offset
        b67.console
      Outcome.ok (hs.map (fun o => o + Bin.header_length))
    else Outcome.ok self.hitbox_offsets
  let bh ← write_hitboxes (hitbox_offsets.zip self.hitboxes) b67
  match self.projectile, self.projectile_offset with
  | some p, some po => ProjectileType.write p bh po
  | _, _ => Outcome.ok bh

/-- The `SerialisedShrekSuperSlamGameObject` impl for `AttackMoveType`
(`src/classes/player/attacks.rs` lines 241-435): hash `0xEBF07BB5`, size
`0x260`. -/
def AttackMoveTypeClass : GameObjectClass AttackMoveType :=
  { hash := 0xEBF07BB5, size := 0x260, new := AttackMoveType.new }

/-- The `WriteableShrekSuperSlamGameObject` impl for `AttackMoveType`
(`src/classes/player/attacks.rs` lines 437-605). -/
def AttackMoveTypeWriteable : WriteableGameObjectClass AttackMoveType :=
  { write := AttackMoveType.write }

/-- The `WriteableShrekSuperSlamGameObject` impl for `ProjectileType`
(`src/classes/player/attacks.rs` lines 717-755). -/
def ProjectileTypeWriteable : WriteableGameObjectClass ProjectileType :=
  { write := ProjectileType.write }

/-- The `WriteableShrekSuperSlamGameObject` impl for `AttackMoveRegion`
(`src/classes/player/attacks.rs` lines 814-852). -/
def AttackMoveRegionWriteable : WriteableGameObjectClass AttackMoveRegion :=
  { write := AttackMoveRegion.write }

/-! ## Read/write support lemmas -/

/-- The value of a 4-byte read at `a` in `raw` for a console, as a total
function (meaningful when `a + 4 ≤ raw.length`). -/
def u32_at (console : Console) (raw : List Nat) (a : Nat) : Nat :=
  match console with
  | .Gamecube => ((raw.getD a 0 * 256 + raw.getD (a + 1) 0) * 256 +
      raw.getD (a + 2) 0) * 256 + raw.getD (a + 3) 0
  | _ => ((raw.getD (a + 3) 0 * 256 + raw.getD (a + 2) 0) * 256 +
      raw.getD (a + 1) 0) * 256 + raw.getD a 0

theorem getElem?_eq_some_getD (l : List Nat) (n : Nat) (h : n < l.length) :
    l[n]? = some (l.getD n 0) := by
  rw [List.getElem?_eq_getElem h, List.getD_eq_getElem l 0 h]

/-- A 4-byte slice at `a`, elementwise. -/
theorem take_drop_four (raw : List Nat) (a : Nat) (h : a + 4 ≤ raw.length) :
    (raw.drop a).take 4 =
      [raw.getD a 0, raw.getD (a + 1) 0, raw.getD (a + 2) 0,
        raw.getD (a + 3) 0] := by
  apply List.ext_getElem?
  intro i
  rw [List.getElem?_take]
  by_cases hi : i < 4
  · rw [if_pos hi, List.getElem?_drop]
    interval_cases i
    · rw [getElem?_eq_some_getD _ _ (by omega)]
      rfl
    · rw [getElem?_eq_some_getD _ _ (by omega)]
      rfl
    · rw [getElem?_eq_some_getD _ _ (by omega)]
      rfl
    · rw [getElem?_eq_some_getD _ _ (by omega)]
      rfl
  · rw [if_neg hi]
    have h4 : ∀ x0 x1 x2 x3 : Nat, ¬ i < 4 →
        ([x0, x1, x2, x3] : List Nat)[i]? = none := by
      intro x0 x1 x2 x3 hlt
      apply List.getElem?_eq_none
      simp only [List.length_cons, List.length_nil]
      omega
    rw [h4 _ _ _ _ hi]

theorem sliceList_four (raw : List Nat) (a b : Nat) (hb : b = a + 4)
    (h : b ≤ raw.length) :
    sliceList raw a b =
      .ok [raw.getD a 0, raw.getD (a + 1) 0, raw.getD (a + 2) 0,
        raw.getD (a + 3) 0] := by
  subst hb
  rw [sliceList, if_pos (by omega)]
  rw [show a + 4 - a = 4 from by omega, take_drop_four raw a h]

/-- A guarded 4-byte read reduces to `u32_at`. -/
theorem read_u32_at_ok (console : Console) (raw : List Nat) (a b : Nat)
    (hb : b = a + 4) (h : b ≤ raw.length) :
    read_u32_at console raw a b = .ok (u32_at console raw a) := by
  rw [read_u32_at, sliceList_four raw a b hb h, Outcome.ok_bind]
  cases console <;>
    simp only [Console.read_u32, u32_at, List.length_cons,
      List.length_nil] <;>
    rw [if_neg (by omega)] <;> rfl

/-- A guarded 4-byte float read reduces to `u32_at` (bit patterns). -/
theorem read_f32_at_ok (console : Console) (raw : List Nat) (a b : Nat)
    (hb : b = a + 4) (h : b ≤ raw.length) :
    read_f32_at console raw a b = .ok (u32_at console raw a) :=
  read_u32_at_ok console raw a b hb h

/-- A guarded byte read reduces to `getD`. -/
theorem indexByte_ok (raw : List Nat) (i : Nat) (h : i < raw.length) :
    indexByte raw i = .ok (raw.getD i 0) := by
  rw [indexByte, getElem?_eq_some_getD raw i h]

theorem getD_lt_256 (raw : List Nat) (i : Nat)
    (hbytes : ∀ x ∈ raw, x < 256) (h : i < raw.length) :
    raw.getD i 0 < 256 := by
  rw [List.getD_eq_getElem raw 0 h]
  exact hbytes _ (List.getElem_mem h)

/-- Writing back the 4 bytes just read is the identity splice. -/
theorem spliceList_self (raw : List Nat) (a b : Nat) (hb : b = a + 4)
    (h : b ≤ raw.length) :
    spliceList raw a b
      [raw.getD a 0, raw.getD (a + 1) 0, raw.getD (a + 2) 0,
        raw.getD (a + 3) 0] = .ok raw := by
  subst hb
  rw [spliceList, if_pos (by omega)]
  rw [← take_drop_four raw a h]
  have hd : (raw.drop a).take 4 ++ raw.drop (a + 4) = raw.drop a := by
    rw [show raw.drop (a + 4) = (raw.drop a).drop 4 from by
      rw [List.drop_drop]]
    exact List.take_append_drop 4 (raw.drop a)
  rw [List.append_assoc, hd, List.take_append_drop]

/-- `write_u32` of the value read at `a` restores the exact bytes. -/
theorem write_u32_u32_at (console : Console) (raw : List Nat) (a : Nat)
    (h : a + 4 ≤ raw.length) (hbytes : ∀ x ∈ raw, x < 256) :
    console.write_u32 (u32_at console raw a) =
      .ok [raw.getD a 0, raw.getD (a + 1) 0, raw.getD (a + 2) 0,
        raw.getD (a + 3) 0] := by
  have h0 := getD_lt_256 raw a hbytes (by omega)
  have h1 := getD_lt_256 raw (a + 1) hbytes (by omega)
  have h2 := getD_lt_256 raw (a + 2) hbytes (by omega)
  have h3 := getD_lt_256 raw (a + 3) hbytes (by omega)
  cases console <;>
    simp only [Console.write_u32, u32_at, Outcome.ok.injEq, List.cons.injEq,
      and_true] <;>
    refine ⟨by omega, by omega, by omega, by omega⟩

/-- Splicing back the float (bit pattern) just read is a no-op. -/
theorem splice_f32_self (bin : Bin) (a b : Nat) (hb : b = a + 4)
    (h : b ≤ bin.raw.length) (hbytes : ∀ x ∈ bin.raw, x < 256) :
    bin.splice_f32 a b (u32_at bin.console bin.raw a) = .ok bin := by
  rw [Bin.splice_f32, Console.write_f32, write_u32_u32_at bin.console
    bin.raw a (by omega) hbytes, Outcome.ok_bind,
    spliceList_self bin.raw a b hb h, Outcome.ok_bind]

/-- Splicing back the u32 just read is a no-op. -/
theorem splice_u32_self (bin : Bin) (a b : Nat) (hb : b = a + 4)
    (h : b ≤ bin.raw.length) (hbytes : ∀ x ∈ bin.raw, x < 256) :
    bin.splice_u32 a b (u32_at bin.console bin.raw a) = .ok bin := by
  rw [Bin.splice_u32, write_u32_u32_at bin.console bin.raw a (by omega)
    hbytes, Outcome.ok_bind, spliceList_self bin.raw a b hb h,
    Outcome.ok_bind]

/-- Setting an index to the value it already holds is the identity. -/
theorem set_getD_self (l : List Nat) (i : Nat) (h : i < l.length) :
    l.set i (l.getD i 0) = l := by
  apply List.ext_getElem?
  intro j
  by_cases hj : i = j
  · subst hj
    rw [List.getElem?_set_eq_of_lt _ h, getElem?_eq_some_getD l i h]
  · rw [List.getElem?_set_ne hj]

/-- Writing back the boolean byte just read is a no-op when the byte is
0 or 1. -/
theorem write_byte_bool_self (bin : Bin) (i : Nat) (h : i < bin.raw.length)
    (hv : bin.raw.getD i 0 ≤ 1) :
    bin.write_byte i (bool_as_u8 (bin.raw.getD i 0 != 0)) = .ok bin := by
  rw [Bin.write_byte, if_pos h]
  have hval : bool_as_u8 (bin.raw.getD i 0 != 0) = bin.raw.getD i 0 := by
    rw [bool_as_u8]
    rcases Nat.le_one_iff_eq_zero_or_eq_one.mp hv with h0 | h1
    · rw [h0]; rfl
    · rw [h1]; rfl
  rw [hval, set_getD_self bin.raw i h]

/-- Writing back the u8 byte just read is a no-op. -/
theorem write_byte_self (bin : Bin) (i : Nat) (h : i < bin.raw.length) :
    bin.write_byte i (bin.raw.getD i 0) = .ok bin := by
  rw [Bin.write_byte, if_pos h, set_getD_self bin.raw i h]

/-- Writing back the i8 byte just read is a no-op. -/
theorem write_byte_i8_self (bin : Bin) (i : Nat) (h : i < bin.raw.length)
    (hbytes : ∀ x ∈ bin.raw, x < 256) :
    bin.write_byte i (i8_as_u8 (u8_as_i8 (bin.raw.getD i 0))) = .ok bin := by
  have hlt := getD_lt_256 bin.raw i hbytes h
  have hval : i8_as_u8 (u8_as_i8 (bin.raw.getD i 0)) = bin.raw.getD i 0 := by
    rw [u8_as_i8, i8_as_u8]
    by_cases hc : bin.raw.getD i 0 < 128
    · rw [if_pos hc]
      omega
    · rw [if_neg hc]
      omega
  rw [hval, write_byte_self bin i h]

theorem position_lt_length (p : Nat → Bool) (l : List Nat) (i : Nat)
    (h : position p l = some i) : i < l.length := by
  induction l generalizing i with
  | nil => exact absurd h (by rw [position]; exact Option.noConfusion)
  | cons b rest ih =>
    rw [position] at h
    by_cases hp : p b
    · rw [if_pos hp] at h
      injection h with h
      rw [← h]
      simp only [List.length_cons]
      omega
    · rw [if_neg hp] at h
      cases hr : position p rest with
      | none => rw [hr] at h; exact absurd h (by exact Option.noConfusion)
      | some j =>
        rw [hr, Option.map_some'] at h
        injection h with h
        have := ih j hr
        simp only [List.length_cons]
        omega

theorem position_eq_none (p : Nat → Bool) (l : List Nat)
    (h : ∀ b ∈ l, ¬ p b) : position p l = none := by
  induction l with
  | nil => rfl
  | cons b rest ih =>
    rw [position, if_neg (h b (by simp)), ih (fun x hx => h x (by simp [hx]))]
    rfl

/-- The string value read by a successful `get_str_from_offset`. -/
def str_value (bin : Bin) (offset : Nat) : String :=
  let s := bin.raw.drop (offset + Bin.header_length)
  let size := (position (fun b => b == 0x00) s).getD 0
  String.mk ((s.take size).map (fun b => Char.ofNat b))

/-- `get_str_from_offset` succeeds whenever the relocated offset is
within the buffer: a missing NUL terminator just yields size 0, and
ISO 8859-1 decoding cannot fail. -/
theorem get_str_from_offset_ok (bin : Bin) (offset : Nat)
    (h : offset + Bin.header_length ≤ bin.raw.length) :
    bin.get_str_from_offset offset = .ok (str_value bin offset) := by
  rw [Bin.get_str_from_offset]
  rw [show sliceList bin.raw (offset + Bin.header_length) bin.raw.length =
      .ok (bin.raw.drop (offset + Bin.header_length)) from by
    rw [sliceList, if_pos ⟨h, Nat.le_refl _⟩]
    rw [show bin.raw.length - (offset + Bin.header_length) =
      (bin.raw.drop (offset + Bin.header_length)).length from by
        rw [List.length_drop]]
    rw [List.take_length]]
  rw [Outcome.ok_bind]
  dsimp only
  have hsize : (position (fun b => b == 0x00)
      (bin.raw.drop (offset + Bin.header_length))).getD 0 ≤
      (bin.raw.drop (offset + Bin.header_length)).length := by
    cases hp : position (fun b => b == 0x00)
        (bin.raw.drop (offset + Bin.header_length)) with
    | none => exact Nat.zero_le _
    | some i =>
      have := position_lt_length _ _ _ hp
      simp only [Option.getD_some]
      omega
  rw [show sliceList bin.raw (offset + Bin.header_length)
      (offset + Bin.header_length +
        (position (fun b => b == 0x00)
          (bin.raw.drop (offset + Bin.header_length))).getD 0) =
      .ok ((bin.raw.drop (offset + Bin.header_length)).take
        ((position (fun b => b == 0x00)
          (bin.raw.drop (offset + Bin.header_length))).getD 0)) from by
    rw [sliceList, if_pos ⟨by omega, by
      rw [List.length_drop] at hsize
      omega⟩]
    rw [show offset + Bin.header_length +
        (position (fun b => b == 0x00)
          (bin.raw.drop (offset + Bin.header_length))).getD 0 -
        (offset + Bin.header_length) =
        (position (fun b => b == 0x00)
          (bin.raw.drop (offset + Bin.header_length))).getD 0 from by omega]]
  rw [Outcome.ok_bind]
  rfl

/-! ## C2: write-back after read -/

/-- The offsets (relative to the object) of the boolean flag bytes of
`Game::AttackMoveType`: read as `byte != 0`, written back as
`bool as u8`. -/
def amtBoolOffsets : List Nat :=
  [0x2C, 0x2D, 0x2E, 0x2F, 0x30, 0x31, 0x32, 0x33, 0x34, 0x35, 0x36,
   0x37, 0x38, 0x39, 0x3A, 0x40, 0x41, 0x42, 0x43, 0x44, 0x47, 0x4A, 0x4B]

theorem Outcome.mapM_nil {α β : Type} (f : α → Outcome β) :
    ([] : List α).mapM f = Outcome.ok [] := rfl

/-- The value a successful `AttackMoveType` read produces for an object
at `ob` with no hitboxes and no projectile. -/
def attack_read_value (bin : Bin) (ob : Nat) : AttackMoveType where
  aim_range := u32_at bin.console bin.raw (ob + 0x74)
  charge := u32_at bin.console bin.raw (ob + 0x98)
  charge_effect := u32_at bin.console bin.raw (ob + 0x94)
  damage1 := u32_at bin.console bin.raw (ob + 0x84)
  damage2 := u32_at bin.console bin.raw (ob + 0x88)
  damage3 := u32_at bin.console bin.raw (ob + 0x8C)
  disabled := bin.raw.getD (ob + 0x35) 0 != 0
  endlag := u32_at bin.console bin.raw (ob + 0x04)
  fall_speed := u32_at bin.console bin.raw (ob + 0x14)
  hitboxes := []
  hits_otg := bin.raw.getD (ob + 0x33) 0 != 0
  intangible := bin.raw.getD (ob + 0x3A) 0 != 0
  invincibility := u32_at bin.console bin.raw (ob + 0x0C)
  is_slam := bin.raw.getD (ob + 0x2C) 0 != 0
  knockback := u32_at bin.console bin.raw (ob + 0xAC)
  knocks_down := bin.raw.getD (ob + 0x34) 0 != 0
  lock_position := bin.raw.getD (ob + 0x31) 0 != 0
  multi_hit_speed := u32_at bin.console bin.raw (ob + 0xA0)
  name := str_value bin (u32_at bin.console bin.raw (ob + 0x28))
  no_opponent_contact := bin.raw.getD (ob + 0x32) 0 != 0
  projectile := none
  shield_breaks := bin.raw.getD (ob + 0x2E) 0 != 0
  stun := u32_at bin.console bin.raw (ob + 0xA4)
  unknown_008 := u32_at bin.console bin.raw (ob + 0x08)
  unknown_010 := u32_at bin.console bin.raw (ob + 0x10)
  unknown_018 := u32_at bin.console bin.raw (ob + 0x18)
  unknown_02d := bin.raw.getD (ob + 0x2D) 0 != 0
  unknown_02f := bin.raw.getD (ob + 0x2F) 0 != 0
  unknown_030 := bin.raw.getD (ob + 0x30) 0 != 0
  unknown_036 := bin.raw.getD (ob + 0x36) 0 != 0
  unknown_037 := bin.raw.getD (ob + 0x37) 0 != 0
  unknown_038 := bin.raw.getD (ob + 0x38) 0 != 0
  unknown_039 := bin.raw.getD (ob + 0x39) 0 != 0
  unknown_03c := u32_at bin.console bin.raw (ob + 0x3C)
  unknown_040 := bin.raw.getD (ob + 0x40) 0 != 0
  unknown_041 := bin.raw.getD (ob + 0x41) 0 != 0
  unknown_042 := bin.raw.getD (ob + 0x42) 0 != 0
  unknown_043 := bin.raw.getD (ob + 0x43) 0 != 0
  unknown_044 := bin.raw.getD (ob + 0x44) 0 != 0
  unknown_045_max_255 := bin.raw.getD (ob + 0x45) 0
  unknown_046_max_128 := u8_as_i8 (bin.raw.getD (ob + 0x46) 0)
  unknown_047 := bin.raw.getD (ob + 0x47) 0 != 0
  unknown_049_does_something_if_5_max_value_255 := bin.raw.getD (ob + 0x49) 0
  unknown_04a := bin.raw.getD (ob + 0x4A) 0 != 0
  unknown_04b := bin.raw.getD (ob + 0x4B) 0 != 0
  unknown_070 := u32_at bin.console bin.raw (ob + 0x70)
  unknown_078 := u32_at bin.console bin.raw (ob + 0x78)
  unknown_07c := u32_at bin.console bin.raw (ob + 0x7C)
  unknown_090 := u32_at bin.console bin.raw (ob + 0x90)
  unknown_0a8 := u32_at bin.console bin.raw (ob + 0xA8)
  unknown_0b0 := u32_at bin.console bin.raw (ob + 0xB0)
  unknown_0b4 := u32_at bin.console bin.raw (ob + 0xB4)
  unknown_0b8 := u32_at bin.console bin.raw (ob + 0xB8)
  unknown_0bc := u32_at bin.console bin.raw (ob + 0xBC)
  unknown_0c0_shielded_opponent_horizontal_vector := u32_at bin.console bin.raw (ob + 0xC0)
  unknown_0c4 := u32_at bin.console bin.raw (ob + 0xC4)
  unknown_0d8 := u32_at bin.console bin.raw (ob + 0xD8)
  unknown_0dc := u32_at bin.console bin.raw (ob + 0xDC)
  unknown_0e0 := u32_at bin.console bin.raw (ob + 0xE0)
  unknown_0e4 := u32_at bin.console bin.raw (ob + 0xE4)
  unknown_0e8 := u32_at bin.console bin.raw (ob + 0xE8)
  unknown_0ec := u32_at bin.console bin.raw (ob + 0xEC)
  unknown_120 := u32_at bin.console bin.raw (ob + 0x120)
  unknown_124 := u32_at bin.console bin.raw (ob + 0x124)
  unknown_128 := u32_at bin.console bin.raw (ob + 0x128)
  unknown_12c := u32_at bin.console bin.raw (ob + 0x12C)
  unknown_130 := u32_at bin.console bin.raw (ob + 0x130)
  unknown_134 := u32_at bin.console bin.raw (ob + 0x134)
  unknown_138 := u32_at bin.console bin.raw (ob + 0x138)
  unknown_13c := u32_at bin.console bin.raw (ob + 0x13C)
  hitbox_offsets := []
  projectile_offset := none

theorem arv_aim_range (bin : Bin) (ob : Nat) :
    (attack_read_value bin ob).aim_range = u32_at bin.console bin.raw (ob + 0x74) := rfl

theorem arv_charge (bin : Bin) (ob : Nat) :
    (attack_read_value bin ob).charge = u32_at bin.console bin.raw (ob + 0x98) := rfl

theorem arv_charge_effect (bin : Bin) (ob : Nat) :
    (attack_read_value bin ob).charge_effect = u32_at bin.console bin.raw (ob + 0x94) := rfl

theorem arv_damage1 (bin : Bin) (ob : Nat) :
    (attack_read_value bin ob).damage1 = u32_at bin.console bin.raw (ob + 0x84) := rfl

theorem arv_damage2 (bin : Bin) (ob : Nat) :
    (attack_read_value bin ob).damage2 = u32_at bin.console bin.raw (ob + 0x88) := rfl

theorem arv_damage3 (bin : Bin) (ob : Nat) :
    (attack_read_value bin ob).damage3 = u32_at bin.console bin.raw (ob + 0x8C) := rfl

theorem arv_disabled (bin : Bin) (ob : Nat) :
    (attack_read_value bin ob).disabled = (bin.raw.getD (ob + 0x35) 0 != 0) := rfl

theorem arv_endlag (bin : Bin) (ob : Nat) :
    (attack_read_value bin ob).endlag = u32_at bin.console bin.raw (ob + 0x04) := rfl

theorem arv_fall_speed (bin : Bin) (ob : Nat) :
    (attack_read_value bin ob).fall_speed = u32_at bin.console bin.raw (ob + 0x14) := rfl

theorem arv_hitboxes (bin : Bin) (ob : Nat) :
    (attack_read_value bin ob).hitboxes = [] := rfl

theorem arv_hits_otg (bin : Bin) (ob : Nat) :
    (attack_read_value bin ob).hits_otg = (bin.raw.getD (ob + 0x33) 0 != 0) := rfl

theorem arv_intangible (bin : Bin) (ob : Nat) :
    (attack_read_value bin ob).intangible = (bin.raw.getD (ob + 0x3A) 0 != 0) := rfl

theorem arv_invincibility (bin : Bin) (ob : Nat) :
    (attack_read_value bin ob).invincibility = u32_at bin.console bin.raw (ob + 0x0C) := rfl

theorem arv_is_slam (bin : Bin) (ob : Nat) :
    (attack_read_value bin ob).is_slam = (bin.raw.getD (ob + 0x2C) 0 != 0) := rfl

theorem arv_knockback (bin : Bin) (ob : Nat) :
    (attack_read_value bin ob).knockback = u32_at bin.console bin.raw (ob + 0xAC) := rfl

theorem arv_knocks_down (bin : Bin) (ob : Nat) :
    (attack_read_value bin ob).knocks_down = (bin.raw.getD (ob + 0x34) 0 != 0) := rfl

theorem arv_lock_position (bin : Bin) (ob : Nat) :
    (attack_read_value bin ob).lock_position = (bin.raw.getD (ob + 0x31) 0 != 0) := rfl

theorem arv_multi_hit_speed (bin : Bin) (ob : Nat) :
    (attack_read_value bin ob).multi_hit_speed = u32_at bin.console bin.raw (ob + 0xA0) := rfl

theorem arv_name (bin : Bin) (ob : Nat) :
    (attack_read_value bin ob).name = str_value bin (u32_at bin.console bin.raw (ob + 0x28)) := rfl

theorem arv_no_opponent_contact (bin : Bin) (ob : Nat) :
    (attack_read_value bin ob).no_opponent_contact = (bin.raw.getD (ob + 0x32) 0 != 0) := rfl

theorem arv_projectile (bin : Bin) (ob : Nat) :
    (attack_read_value bin ob).projectile = none := rfl

theorem arv_shield_breaks (bin : Bin) (ob : Nat) :
    (attack_read_value bin ob).shield_breaks = (bin.raw.getD (ob + 0x2E) 0 != 0) := rfl

theorem arv_stun (bin : Bin) (ob : Nat) :
    (attack_read_value bin ob).stun = u32_at bin.console bin.raw (ob + 0xA4) := rfl

theorem arv_unknown_008 (bin : Bin) (ob : Nat) :
    (attack_read_value bin ob).unknown_008 = u32_at bin.console bin.raw (ob + 0x08) := rfl

theorem arv_unknown_010 (bin : Bin) (ob : Nat) :
    (attack_read_value bin ob).unknown_010 = u32_at bin.console bin.raw (ob + 0x10) := rfl

theorem arv_unknown_018 (bin : Bin) (ob : Nat) :
    (attack_read_value bin ob).unknown_018 = u32_at bin.console bin.raw (ob + 0x18) := rfl

theorem arv_unknown_02d (bin : Bin) (ob : Nat) :
    (attack_read_value bin ob).unknown_02d = (bin.raw.getD (ob + 0x2D) 0 != 0) := rfl

theorem arv_unknown_02f (bin : Bin) (ob : Nat) :
    (attack_read_value bin ob).unknown_02f = (bin.raw.getD (ob + 0x2F) 0 != 0) := rfl

theorem arv_unknown_030 (bin : Bin) (ob : Nat) :
    (attack_read_value bin ob).unknown_030 = (bin.raw.getD (ob + 0x30) 0 != 0) := rfl

theorem arv_unknown_036 (bin : Bin) (ob : Nat) :
    (attack_read_value bin ob).unknown_036 = (bin.raw.getD (ob + 0x36) 0 != 0) := rfl

theorem arv_unknown_037 (bin : Bin) (ob : Nat) :
    (attack_read_value bin ob).unknown_037 = (bin.raw.getD (ob + 0x37) 0 != 0) := rfl

theorem arv_unknown_038 (bin : Bin) (ob : Nat) :
    (attack_read_value bin ob).unknown_038 = (bin.raw.getD (ob + 0x38) 0 != 0) := rfl

theorem arv_unknown_039 (bin : Bin) (ob : Nat) :
    (attack_read_value bin ob).unknown_039 = (bin.raw.getD (ob + 0x39) 0 != 0) := rfl

theorem arv_unknown_03c (bin : Bin) (ob : Nat) :
    (attack_read_value bin ob).unknown_03c = u32_at bin.console bin.raw (ob + 0x3C) := rfl

theorem arv_unknown_040 (bin : Bin) (ob : Nat) :
    (attack_read_value bin ob).unknown_040 = (bin.raw.getD (ob + 0x40) 0 != 0) := rfl

theorem arv_unknown_041 (bin : Bin) (ob : Nat) :
    (attack_read_value bin ob).unknown_041 = (bin.raw.getD (ob + 0x41) 0 != 0) := rfl

theorem arv_unknown_042 (bin : Bin) (ob : Nat) :
    (attack_read_value bin ob).unknown_042 = (bin.raw.getD (ob + 0x42) 0 != 0) := rfl

theorem arv_unknown_043 (bin : Bin) (ob : Nat) :
    (attack_read_value bin ob).unknown_043 = (bin.raw.getD (ob + 0x43) 0 != 0) := rfl

theorem arv_unknown_044 (bin : Bin) (ob : Nat) :
    (attack_read_value bin ob).unknown_044 = (bin.raw.getD (ob + 0x44) 0 != 0) := rfl

theorem arv_unknown_045_max_255 (bin : Bin) (ob : Nat) :
    (attack_read_value bin ob).unknown_045_max_255 = bin.raw.getD (ob + 0x45) 0 := rfl

theorem arv_unknown_046_max_128 (bin : Bin) (ob : Nat) :
    (attack_read_value bin ob).unknown_046_max_128 = u8_as_i8 (bin.raw.getD (ob + 0x46) 0) := rfl

theorem arv_unknown_047 (bin : Bin) (ob : Nat) :
    (attack_read_value bin ob).unknown_047 = (bin.raw.getD (ob + 0x47) 0 != 0) := rfl

theorem arv_unknown_049_does_something_if_5_max_value_255 (bin : Bin) (ob : Nat) :
    (attack_read_value bin ob).unknown_049_does_something_if_5_max_value_255 = bin.raw.getD (ob + 0x49) 0 := rfl

theorem arv_unknown_04a (bin : Bin) (ob : Nat) :
    (attack_read_value bin ob).unknown_04a = (bin.raw.getD (ob + 0x4A) 0 != 0) := rfl

theorem arv_unknown_04b (bin : Bin) (ob : Nat) :
    (attack_read_value bin ob).unknown_04b = (bin.raw.getD (ob + 0x4B) 0 != 0) := rfl

theorem arv_unknown_070 (bin : Bin) (ob : Nat) :
    (attack_read_value bin ob).unknown_070 = u32_at bin.console bin.raw (ob + 0x70) := rfl

theorem arv_unknown_078 (bin : Bin) (ob : Nat) :
    (attack_read_value bin ob).unknown_078 = u32_at bin.console bin.raw (ob + 0x78) := rfl

theorem arv_unknown_07c (bin : Bin) (ob : Nat) :
    (attack_read_value bin ob).unknown_07c = u32_at bin.console bin.raw (ob + 0x7C) := rfl

theorem arv_unknown_090 (bin : Bin) (ob : Nat) :
    (attack_read_value bin ob).unknown_090 = u32_at bin.console bin.raw (ob + 0x90) := rfl

theorem arv_unknown_0a8 (bin : Bin) (ob : Nat) :
    (attack_read_value bin ob).unknown_0a8 = u32_at bin.console bin.raw (ob + 0xA8) := rfl

theorem arv_unknown_0b0 (bin : Bin) (ob : Nat) :
    (attack_read_value bin ob).unknown_0b0 = u32_at bin.console bin.raw (ob + 0xB0) := rfl

theorem arv_unknown_0b4 (bin : Bin) (ob : Nat) :
    (attack_read_value bin ob).unknown_0b4 = u32_at bin.console bin.raw (ob + 0xB4) := rfl

theorem arv_unknown_0b8 (bin : Bin) (ob : Nat) :
    (attack_read_value bin ob).unknown_0b8 = u32_at bin.console bin.raw (ob + 0xB8) := rfl

theorem arv_unknown_0bc (bin : Bin) (ob : Nat) :
    (attack_read_value bin ob).unknown_0bc = u32_at bin.console bin.raw (ob + 0xBC) := rfl

theorem arv_unknown_0c0_shielded_opponent_horizontal_vector (bin : Bin) (ob : Nat) :
    (attack_read_value bin ob).unknown_0c0_shielded_opponent_horizontal_vector = u32_at bin.console bin.raw (ob + 0xC0) := rfl

theorem arv_unknown_0c4 (bin : Bin) (ob : Nat) :
    (attack_read_value bin ob).unknown_0c4 = u32_at bin.console bin.raw (ob + 0xC4) := rfl

theorem arv_unknown_0d8 (bin : Bin) (ob : Nat) :
    (attack_read_value bin ob).unknown_0d8 = u32_at bin.console bin.raw (ob + 0xD8) := rfl

theorem arv_unknown_0dc (bin : Bin) (ob : Nat) :
    (attack_read_value bin ob).unknown_0dc = u32_at bin.console bin.raw (ob + 0xDC) := rfl

theorem arv_unknown_0e0 (bin : Bin) (ob : Nat) :
    (attack_read_value bin ob).unknown_0e0 = u32_at bin.console bin.raw (ob + 0xE0) := rfl

theorem arv_unknown_0e4 (bin : Bin) (ob : Nat) :
    (attack_read_value bin ob).unknown_0e4 = u32_at bin.console bin.raw (ob + 0xE4) := rfl

theorem arv_unknown_0e8 (bin : Bin) (ob : Nat) :
    (attack_read_value bin ob).unknown_0e8 = u32_at bin.console bin.raw (ob + 0xE8) := rfl

theorem arv_unknown_0ec (bin : Bin) (ob : Nat) :
    (attack_read_value bin ob).unknown_0ec = u32_at bin.console bin.raw (ob + 0xEC) := rfl

theorem arv_unknown_120 (bin : Bin) (ob : Nat) :
    (attack_read_value bin ob).unknown_120 = u32_at bin.console bin.raw (ob + 0x120) := rfl

theorem arv_unknown_124 (bin : Bin) (ob : Nat) :
    (attack_read_value bin ob).unknown_124 = u32_at bin.console bin.raw (ob + 0x124) := rfl

theorem arv_unknown_128 (bin : Bin) (ob : Nat) :
    (attack_read_value bin ob).unknown_128 = u32_at bin.console bin.raw (ob + 0x128) := rfl

theorem arv_unknown_12c (bin : Bin) (ob : Nat) :
    (attack_read_value bin ob).unknown_12c = u32_at bin.console bin.raw (ob + 0x12C) := rfl

theorem arv_unknown_130 (bin : Bin) (ob : Nat) :
    (attack_read_value bin ob).unknown_130 = u32_at bin.console bin.raw (ob + 0x130) := rfl

theorem arv_unknown_134 (bin : Bin) (ob : Nat) :
    (attack_read_value bin ob).unknown_134 = u32_at bin.console bin.raw (ob + 0x134) := rfl

theorem arv_unknown_138 (bin : Bin) (ob : Nat) :
    (attack_read_value bin ob).unknown_138 = u32_at bin.console bin.raw (ob + 0x138) := rfl

theorem arv_unknown_13c (bin : Bin) (ob : Nat) :
    (attack_read_value bin ob).unknown_13c = u32_at bin.console bin.raw (ob + 0x13C) := rfl

theorem arv_hitbox_offsets (bin : Bin) (ob : Nat) :
    (attack_read_value bin ob).hitbox_offsets = [] := rfl

theorem arv_projectile_offset (bin : Bin) (ob : Nat) :
    (attack_read_value bin ob).projectile_offset = none := rfl

set_option maxHeartbeats 4000000 in
/-- Writing back the exact value read from a no-hitbox, no-projectile
`AttackMoveType` restores every byte, provided every boolean flag byte
is 0 or 1. -/
theorem attack_write_value_identity (bin : Bin) (ob : Nat)
    (hbytes : ∀ x ∈ bin.raw, x < 256)
    (hsize : ob + 0x140 ≤ bin.raw.length)
    (hnum : u32_at bin.console bin.raw (ob + 0x24) = 0)
    (hbool : ∀ j ∈ amtBoolOffsets, bin.raw.getD (ob + j) 0 ≤ 1) :
    AttackMoveType.write (attack_read_value bin ob) bin ob = .ok bin := by
  have hb2C : bin.raw.getD (ob + 0x2C) 0 ≤ 1 :=
    hbool 0x2C (by decide)
  have hb2D : bin.raw.getD (ob + 0x2D) 0 ≤ 1 :=
    hbool 0x2D (by decide)
  have hb2E : bin.raw.getD (ob + 0x2E) 0 ≤ 1 :=
    hbool 0x2E (by decide)
  have hb2F : bin.raw.getD (ob + 0x2F) 0 ≤ 1 :=
    hbool 0x2F (by decide)
  have hb30 : bin.raw.getD (ob + 0x30) 0 ≤ 1 :=
    hbool 0x30 (by decide)
  have hb31 : bin.raw.getD (ob + 0x31) 0 ≤ 1 :=
    hbool 0x31 (by decide)
  have hb32 : bin.raw.getD (ob + 0x32) 0 ≤ 1 :=
    hbool 0x32 (by decide)
  have hb33 : bin.raw.getD (ob + 0x33) 0 ≤ 1 :=
    hbool 0x33 (by decide)
  have hb34 : bin.raw.getD (ob + 0x34) 0 ≤ 1 :=
    hbool 0x34 (by decide)
  have hb35 : bin.raw.getD (ob + 0x35) 0 ≤ 1 :=
    hbool 0x35 (by decide)
  have hb36 : bin.raw.getD (ob + 0x36) 0 ≤ 1 :=
    hbool 0x36 (by decide)
  have hb37 : bin.raw.getD (ob + 0x37) 0 ≤ 1 :=
    hbool 0x37 (by decide)
  have hb38 : bin.raw.getD (ob + 0x38) 0 ≤ 1 :=
    hbool 0x38 (by decide)
  have hb39 : bin.raw.getD (ob + 0x39) 0 ≤ 1 :=
    hbool 0x39 (by decide)
  have hb3A : bin.raw.getD (ob + 0x3A) 0 ≤ 1 :=
    hbool 0x3A (by decide)
  have hb40 : bin.raw.getD (ob + 0x40) 0 ≤ 1 :=
    hbool 0x40 (by decide)
  have hb41 : bin.raw.getD (ob + 0x41) 0 ≤ 1 :=
    hbool 0x41 (by decide)
  have hb42 : bin.raw.getD (ob + 0x42) 0 ≤ 1 :=
    hbool 0x42 (by decide)
  have hb43 : bin.raw.getD (ob + 0x43) 0 ≤ 1 :=
    hbool 0x43 (by decide)
  have hb44 : bin.raw.getD (ob + 0x44) 0 ≤ 1 :=
    hbool 0x44 (by decide)
  have hb47 : bin.raw.getD (ob + 0x47) 0 ≤ 1 :=
    hbool 0x47 (by decide)
  have hb4A : bin.raw.getD (ob + 0x4A) 0 ≤ 1 :=
    hbool 0x4A (by decide)
  have hb4B : bin.raw.getD (ob + 0x4B) 0 ≤ 1 :=
    hbool 0x4B (by decide)
  rw [AttackMoveType.write]
  simp only [arv_aim_range,
     arv_charge,
     arv_charge_effect,
     arv_damage1,
     arv_damage2,
     arv_damage3,
     arv_disabled,
     arv_endlag,
     arv_fall_speed,
     arv_hitboxes,
     arv_hits_otg,
     arv_intangible,
     arv_invincibility,
     arv_is_slam,
     arv_knockback,
     arv_knocks_down,
     arv_lock_position,
     arv_multi_hit_speed,
     arv_name,
     arv_no_opponent_contact,
     arv_projectile,
     arv_shield_breaks,
     arv_stun,
     arv_unknown_008,
     arv_unknown_010,
     arv_unknown_018,
     arv_unknown_02d,
     arv_unknown_02f,
     arv_unknown_030,
     arv_unknown_036,
     arv_unknown_037,
     arv_unknown_038,
     arv_unknown_039,
     arv_unknown_03c,
     arv_unknown_040,
     arv_unknown_041,
     arv_unknown_042,
     arv_unknown_043,
     arv_unknown_044,
     arv_unknown_045_max_255,
     arv_unknown_046_max_128,
     arv_unknown_047,
     arv_unknown_049_does_something_if_5_max_value_255,
     arv_unknown_04a,
     arv_unknown_04b,
     arv_unknown_070,
     arv_unknown_078,
     arv_unknown_07c,
     arv_unknown_090,
     arv_unknown_0a8,
     arv_unknown_0b0,
     arv_unknown_0b4,
     arv_unknown_0b8,
     arv_unknown_0bc,
     arv_unknown_0c0_shielded_opponent_horizontal_vector,
     arv_unknown_0c4,
     arv_unknown_0d8,
     arv_unknown_0dc,
     arv_unknown_0e0,
     arv_unknown_0e4,
     arv_unknown_0e8,
     arv_unknown_0ec,
     arv_unknown_120,
     arv_unknown_124,
     arv_unknown_128,
     arv_unknown_12c,
     arv_unknown_130,
     arv_unknown_134,
     arv_unknown_138,
     arv_unknown_13c,
     arv_hitbox_offsets,
     arv_projectile_offset]
  rw [splice_f32_self bin (ob + 0x04) (ob + 0x08) (by omega) (by omega)
    hbytes, Outcome.ok_bind]
  rw [splice_f32_self bin (ob + 0x0C) (ob + 0x10) (by omega) (by omega)
    hbytes, Outcome.ok_bind]
  rw [splice_f32_self bin (ob + 0x14) (ob + 0x18) (by omega) (by omega)
    hbytes, Outcome.ok_bind]
  rw [write_byte_bool_self bin (ob + 0x2C) (by omega) hb2C,
    Outcome.ok_bind]
  rw [write_byte_bool_self bin (ob + 0x2E) (by omega) hb2E,
    Outcome.ok_bind]
  rw [write_byte_bool_self bin (ob + 0x31) (by omega) hb31,
    Outcome.ok_bind]
  rw [write_byte_bool_self bin (ob + 0x32) (by omega) hb32,
    Outcome.ok_bind]
  rw [write_byte_bool_self bin (ob + 0x33) (by omega) hb33,
    Outcome.ok_bind]
  rw [write_byte_bool_self bin (ob + 0x34) (by omega) hb34,
    Outcome.ok_bind]
  rw [write_byte_bool_self bin (ob + 0x35) (by omega) hb35,
    Outcome.ok_bind]
  rw [write_byte_bool_self bin (ob + 0x3A) (by omega) hb3A,
    Outcome.ok_bind]
  rw [splice_f32_self bin (ob + 0x74) (ob + 0x78) (by omega) (by omega)
    hbytes, Outcome.ok_bind]
  rw [splice_f32_self bin (ob + 0x84) (ob + 0x88) (by omega) (by omega)
    hbytes, Outcome.ok_bind]
  rw [splice_f32_self bin (ob + 0x88) (ob + 0x8C) (by omega) (by omega)
    hbytes, Outcome.ok_bind]
  rw [splice_f32_self bin (ob + 0x8C) (ob + 0x90) (by omega) (by omega)
    hbytes, Outcome.ok_bind]
  rw [splice_f32_self bin (ob + 0x94) (ob + 0x98) (by omega) (by omega)
    hbytes, Outcome.ok_bind]
  rw [splice_f32_self bin (ob + 0x98) (ob + 0x9C) (by omega) (by omega)
    hbytes, Outcome.ok_bind]
  rw [splice_f32_self bin (ob + 0xA0) (ob + 0xA4) (by omega) (by omega)
    hbytes, Outcome.ok_bind]
  rw [splice_f32_self bin (ob + 0xA4) (ob + 0xA8) (by omega) (by omega)
    hbytes, Outcome.ok_bind]
  rw [splice_f32_self bin (ob + 0xAC) (ob + 0xB0) (by omega) (by omega)
    hbytes, Outcome.ok_bind]
  rw [splice_f32_self bin (ob + 0x08) (ob + 0x0C) (by omega) (by omega)
    hbytes, Outcome.ok_bind]
  rw [splice_f32_self bin (ob + 0x10) (ob + 0x14) (by omega) (by omega)
    hbytes, Outcome.ok_bind]
  rw [splice_f32_self bin (ob + 0x18) (ob + 0x1C) (by omega) (by omega)
    hbytes, Outcome.ok_bind]
  rw [splice_u32_self bin (ob + 0x3C) (ob + 0x40) (by omega) (by omega)
    hbytes, Outcome.ok_bind]
  rw [splice_f32_self bin (ob + 0x70) (ob + 0x74) (by omega) (by omega)
    hbytes, Outcome.ok_bind]
  rw [splice_f32_self bin (ob + 0x78) (ob + 0x7C) (by omega) (by omega)
    hbytes, Outcome.ok_bind]
  rw [splice_f32_self bin (ob + 0x7C) (ob + 0x80) (by omega) (by omega)
    hbytes, Outcome.ok_bind]
  rw [splice_f32_self bin (ob + 0x90) (ob + 0x94) (by omega) (by omega)
    hbytes, Outcome.ok_bind]
  rw [splice_f32_self bin (ob + 0xA8) (ob + 0xAC) (by omega) (by omega)
    hbytes, Outcome.ok_bind]
  rw [splice_f32_self bin (ob + 0xB0) (ob + 0xB4) (by omega) (by omega)
    hbytes, Outcome.ok_bind]
  rw [splice_f32_self bin (ob + 0xB4) (ob + 0xB8) (by omega) (by omega)
    hbytes, Outcome.ok_bind]
  rw [splice_f32_self bin (ob + 0xB8) (ob + 0xBC) (by omega) (by omega)
    hbytes, Outcome.ok_bind]
  rw [splice_f32_self bin (ob + 0xBC) (ob + 0xC0) (by omega) (by omega)
    hbytes, Outcome.ok_bind]
  rw [splice_f32_self bin (ob + 0xC0) (ob + 0xC4) (by omega) (by omega)
    hbytes, Outcome.ok_bind]
  rw [splice_f32_self bin (ob + 0xC4) (ob + 0xC8) (by omega) (by omega)
    hbytes, Outcome.ok_bind]
  rw [splice_f32_self bin (ob + 0xD8) (ob + 0xDC) (by omega) (by omega)
    hbytes, Outcome.ok_bind]
  rw [splice_f32_self bin (ob + 0xDC) (ob + 0xE0) (by omega) (by omega)
    hbytes, Outcome.ok_bind]
  rw [splice_f32_self bin (ob + 0xE0) (ob + 0xE4) (by omega) (by omega)
    hbytes, Outcome.ok_bind]
  rw [splice_f32_self bin (ob + 0xE4) (ob + 0xE8) (by omega) (by omega)
    hbytes, Outcome.ok_bind]
  rw [splice_f32_self bin (ob + 0xE8) (ob + 0xEC) (by omega) (by omega)
    hbytes, Outcome.ok_bind]
  rw [splice_f32_self bin (ob + 0xEC) (ob + 0xF0) (by omega) (by omega)
    hbytes, Outcome.ok_bind]
  rw [splice_f32_self bin (ob + 0x120) (ob + 0x124) (by omega) (by omega)
    hbytes, Outcome.ok_bind]
  rw [splice_f32_self bin (ob + 0x124) (ob + 0x128) (by omega) (by omega)
    hbytes, Outcome.ok_bind]
  rw [splice_f32_self bin (ob + 0x128) (ob + 0x12C) (by omega) (by omega)
    hbytes, Outcome.ok_bind]
  rw [splice_f32_self bin (ob + 0x12C) (ob + 0x130) (by omega) (by omega)
    hbytes, Outcome.ok_bind]
  rw [splice_f32_self bin (ob + 0x130) (ob + 0x134) (by omega) (by omega)
    hbytes, Outcome.ok_bind]
  rw [splice_f32_self bin (ob + 0x134) (ob + 0x138) (by omega) (by omega)
    hbytes, Outcome.ok_bind]
  rw [splice_f32_self bin (ob + 0x138) (ob + 0x13C) (by omega) (by omega)
    hbytes, Outcome.ok_bind]
  rw [splice_f32_self bin (ob + 0x13C) (ob + 0x140) (by omega) (by omega)
    hbytes, Outcome.ok_bind]
  rw [write_byte_bool_self bin (ob + 0x2D) (by omega) hb2D,
    Outcome.ok_bind]
  rw [write_byte_bool_self bin (ob + 0x2F) (by omega) hb2F,
    Outcome.ok_bind]
  rw [write_byte_bool_self bin (ob + 0x30) (by omega) hb30,
    Outcome.ok_bind]
  rw [write_byte_bool_self bin (ob + 0x36) (by omega) hb36,
    Outcome.ok_bind]
  rw [write_byte_bool_self bin (ob + 0x37) (by omega) hb37,
    Outcome.ok_bind]
  rw [write_byte_bool_self bin (ob + 0x38) (by omega) hb38,
    Outcome.ok_bind]
  rw [write_byte_bool_self bin (ob + 0x39) (by omega) hb39,
    Outcome.ok_bind]
  rw [write_byte_bool_self bin (ob + 0x40) (by omega) hb40,
    Outcome.ok_bind]
  rw [write_byte_bool_self bin (ob + 0x41) (by omega) hb41,
    Outcome.ok_bind]
  rw [write_byte_bool_self bin (ob + 0x42) (by omega) hb42,
    Outcome.ok_bind]
  rw [write_byte_bool_self bin (ob + 0x43) (by omega) hb43,
    Outcome.ok_bind]
  rw [write_byte_bool_self bin (ob + 0x44) (by omega) hb44,
    Outcome.ok_bind]
  rw [write_byte_self bin (ob + 0x45) (by omega), Outcome.ok_bind]
  rw [write_byte_i8_self bin (ob + 0x46) (by omega) hbytes,
    Outcome.ok_bind]
  rw [write_byte_bool_self bin (ob + 0x47) (by omega) hb47,
    Outcome.ok_bind]
  rw [write_byte_self bin (ob + 0x49) (by omega), Outcome.ok_bind]
  rw [write_byte_bool_self bin (ob + 0x4A) (by omega) hb4A,
    Outcome.ok_bind]
  rw [write_byte_bool_self bin (ob + 0x4B) (by omega) hb4B,
    Outcome.ok_bind]
  rw [AttackMoveType.number_of_hitboxes,
    read_u32_at_ok bin.console bin.raw (ob + 0x24) (ob + 0x28) (by omega)
      (by omega), hnum, Outcome.ok_bind]
  rw [if_neg (by decide), Outcome.ok_bind]
  rw [List.zip_nil_left, write_hitboxes, Outcome.ok_bind]

set_option maxHeartbeats 4000000 in
/-- Reading an `AttackMoveType` whose hitbox count and projectile offset
are zero yields exactly `attack_read_value`. -/
theorem attack_read_ok (bin : Bin) (offset : Nat)
    (hsize : offset + 0x260 ≤ bin.raw.length)
    (hhash : u32_at bin.console bin.raw (offset + Bin.header_length) =
      0xEBF07BB5)
    (hname : u32_at bin.console bin.raw
        (offset + Bin.header_length + 0x28) + Bin.header_length ≤
      bin.raw.length)
    (hnum : u32_at bin.console bin.raw
      (offset + Bin.header_length + 0x24) = 0)
    (hproj : u32_at bin.console bin.raw
      (offset + Bin.header_length + 0x9C) = 0) :
    bin.get_object_from_offset AttackMoveTypeClass offset =
      .ok (attack_read_value bin (offset + Bin.header_length)) := by
  have hH : Bin.header_length = 64 := rfl
  simp only [Bin.get_object_from_offset, AttackMoveTypeClass, gt_iff_lt]
  rw [if_neg (by omega)]
  rw [read_u32_at_ok bin.console bin.raw (offset + Bin.header_length)
    (offset + Bin.header_length + 4) (by omega) (by omega), hhash, Outcome.ok_bind]
  rw [if_neg (by decide)]
  simp only [AttackMoveType.new, AttackMoveType.read_hitbox_offsets,
    AttackMoveType.number_of_hitboxes]
  rw [read_f32_at_ok bin.console bin.raw (offset + Bin.header_length + 0x04)
    (offset + Bin.header_length + 0x08) (by omega) (by omega)]
  rw [read_f32_at_ok bin.console bin.raw (offset + Bin.header_length + 0x0C)
    (offset + Bin.header_length + 0x10) (by omega) (by omega)]
  rw [read_f32_at_ok bin.console bin.raw (offset + Bin.header_length + 0x14)
    (offset + Bin.header_length + 0x18) (by omega) (by omega)]
  rw [read_u32_at_ok bin.console bin.raw (offset + Bin.header_length + 0x28)
    (offset + Bin.header_length + 0x2C) (by omega) (by omega)]
  rw [read_f32_at_ok bin.console bin.raw (offset + Bin.header_length + 0x74)
    (offset + Bin.header_length + 0x78) (by omega) (by omega)]
  rw [read_f32_at_ok bin.console bin.raw (offset + Bin.header_length + 0x84)
    (offset + Bin.header_length + 0x88) (by omega) (by omega)]
  rw [read_f32_at_ok bin.console bin.raw (offset + Bin.header_length + 0x88)
    (offset + Bin.header_length + 0x8C) (by omega) (by omega)]
  rw [read_f32_at_ok bin.console bin.raw (offset + Bin.header_length + 0x8C)
    (offset + Bin.header_length + 0x90) (by omega) (by omega)]
  rw [read_f32_at_ok bin.console bin.raw (offset + Bin.header_length + 0x94)
    (offset + Bin.header_length + 0x98) (by omega) (by omega)]
  rw [read_f32_at_ok bin.console bin.raw (offset + Bin.header_length + 0x98)
    (offset + Bin.header_length + 0x9C) (by omega) (by omega)]
  rw [read_f32_at_ok bin.console bin.raw (offset + Bin.header_length + 0xA0)
    (offset + Bin.header_length + 0xA4) (by omega) (by omega)]
  rw [read_f32_at_ok bin.console bin.raw (offset + Bin.header_length + 0xA4)
    (offset + Bin.header_length + 0xA8) (by omega) (by omega)]
  rw [read_f32_at_ok bin.console bin.raw (offset + Bin.header_length + 0xAC)
    (offset + Bin.header_length + 0xB0) (by omega) (by omega)]
  rw [read_f32_at_ok bin.console bin.raw (offset + Bin.header_length + 0x08)
    (offset + Bin.header_length + 0x0C) (by omega) (by omega)]
  rw [read_f32_at_ok bin.console bin.raw (offset + Bin.header_length + 0x10)
    (offset + Bin.header_length + 0x14) (by omega) (by omega)]
  rw [read_f32_at_ok bin.console bin.raw (offset + Bin.header_length + 0x18)
    (offset + Bin.header_length + 0x1C) (by omega) (by omega)]
  rw [read_u32_at_ok bin.console bin.raw (offset + Bin.header_length + 0x3C)
    (offset + Bin.header_length + 0x40) (by omega) (by omega)]
  rw [read_f32_at_ok bin.console bin.raw (offset + Bin.header_length + 0x70)
    (offset + Bin.header_length + 0x74) (by omega) (by omega)]
  rw [read_f32_at_ok bin.console bin.raw (offset + Bin.header_length + 0x78)
    (offset + Bin.header_length + 0x7C) (by omega) (by omega)]
  rw [read_f32_at_ok bin.console bin.raw (offset + Bin.header_length + 0x7C)
    (offset + Bin.header_length + 0x80) (by omega) (by omega)]
  rw [read_f32_at_ok bin.console bin.raw (offset + Bin.header_length + 0x90)
    (offset + Bin.header_length + 0x94) (by omega) (by omega)]
  rw [read_f32_at_ok bin.console bin.raw (offset + Bin.header_length + 0xA8)
    (offset + Bin.header_length + 0xAC) (by omega) (by omega)]
  rw [read_f32_at_ok bin.console bin.raw (offset + Bin.header_length + 0xB0)
    (offset + Bin.header_length + 0xB4) (by omega) (by omega)]
  rw [read_f32_at_ok bin.console bin.raw (offset + Bin.header_length + 0xB4)
    (offset + Bin.header_length + 0xB8) (by omega) (by omega)]
  rw [read_f32_at_ok bin.console bin.raw (offset + Bin.header_length + 0xB8)
    (offset + Bin.header_length + 0xBC) (by omega) (by omega)]
  rw [read_f32_at_ok bin.console bin.raw (offset + Bin.header_length + 0xBC)
    (offset + Bin.header_length + 0xC0) (by omega) (by omega)]
  rw [read_f32_at_ok bin.console bin.raw (offset + Bin.header_length + 0xC0)
    (offset + Bin.header_length + 0xC4) (by omega) (by omega)]
  rw [read_f32_at_ok bin.console bin.raw (offset + Bin.header_length + 0xC4)
    (offset + Bin.header_length + 0xC8) (by omega) (by omega)]
  rw [read_f32_at_ok bin.console bin.raw (offset + Bin.header_length + 0xD8)
    (offset + Bin.header_length + 0xDC) (by omega) (by omega)]
  rw [read_f32_at_ok bin.console bin.raw (offset + Bin.header_length + 0xDC)
    (offset + Bin.header_length + 0xE0) (by omega) (by omega)]
  rw [read_f32_at_ok bin.console bin.raw (offset + Bin.header_length + 0xE0)
    (offset + Bin.header_length + 0xE4) (by omega) (by omega)]
  rw [read_f32_at_ok bin.console bin.raw (offset + Bin.header_length + 0xE4)
    (offset + Bin.header_length + 0xE8) (by omega) (by omega)]
  rw [read_f32_at_ok bin.console bin.raw (offset + Bin.header_length + 0xE8)
    (offset + Bin.header_length + 0xEC) (by omega) (by omega)]
  rw [read_f32_at_ok bin.console bin.raw (offset + Bin.header_length + 0xEC)
    (offset + Bin.header_length + 0xF0) (by omega) (by omega)]
  rw [read_f32_at_ok bin.console bin.raw (offset + Bin.header_length + 0x120)
    (offset + Bin.header_length + 0x124) (by omega) (by omega)]
  rw [read_f32_at_ok bin.console bin.raw (offset + Bin.header_length + 0x124)
    (offset + Bin.header_length + 0x128) (by omega) (by omega)]
  rw [read_f32_at_ok bin.console bin.raw (offset + Bin.header_length + 0x128)
    (offset + Bin.header_length + 0x12C) (by omega) (by omega)]
  rw [read_f32_at_ok bin.console bin.raw (offset + Bin.header_length + 0x12C)
    (offset + Bin.header_length + 0x130) (by omega) (by omega)]
  rw [read_f32_at_ok bin.console bin.raw (offset + Bin.header_length + 0x130)
    (offset + Bin.header_length + 0x134) (by omega) (by omega)]
  rw [read_f32_at_ok bin.console bin.raw (offset + Bin.header_length + 0x134)
    (offset + Bin.header_length + 0x138) (by omega) (by omega)]
  rw [read_f32_at_ok bin.console bin.raw (offset + Bin.header_length + 0x138)
    (offset + Bin.header_length + 0x13C) (by omega) (by omega)]
  rw [read_f32_at_ok bin.console bin.raw (offset + Bin.header_length + 0x13C)
    (offset + Bin.header_length + 0x140) (by omega) (by omega)]
  rw [indexByte_ok bin.raw (offset + Bin.header_length + 0x2C) (by omega)]
  rw [indexByte_ok bin.raw (offset + Bin.header_length + 0x2E) (by omega)]
  rw [indexByte_ok bin.raw (offset + Bin.header_length + 0x31) (by omega)]
  rw [indexByte_ok bin.raw (offset + Bin.header_length + 0x32) (by omega)]
  rw [indexByte_ok bin.raw (offset + Bin.header_length + 0x33) (by omega)]
  rw [indexByte_ok bin.raw (offset + Bin.header_length + 0x34) (by omega)]
  rw [indexByte_ok bin.raw (offset + Bin.header_length + 0x35) (by omega)]
  rw [indexByte_ok bin.raw (offset + Bin.header_length + 0x3A) (by omega)]
  rw [indexByte_ok bin.raw (offset + Bin.header_length + 0x2D) (by omega)]
  rw [indexByte_ok bin.raw (offset + Bin.header_length + 0x2F) (by omega)]
  rw [indexByte_ok bin.raw (offset + Bin.header_length + 0x30) (by omega)]
  rw [indexByte_ok bin.raw (offset + Bin.header_length + 0x36) (by omega)]
  rw [indexByte_ok bin.raw (offset + Bin.header_length + 0x37) (by omega)]
  rw [indexByte_ok bin.raw (offset + Bin.header_length + 0x38) (by omega)]
  rw [indexByte_ok bin.raw (offset + Bin.header_length + 0x39) (by omega)]
  rw [indexByte_ok bin.raw (offset + Bin.header_length + 0x40) (by omega)]
  rw [indexByte_ok bin.raw (offset + Bin.header_length + 0x41) (by omega)]
  rw [indexByte_ok bin.raw (offset + Bin.header_length + 0x42) (by omega)]
  rw [indexByte_ok bin.raw (offset + Bin.header_length + 0x43) (by omega)]
  rw [indexByte_ok bin.raw (offset + Bin.header_length + 0x44) (by omega)]
  rw [indexByte_ok bin.raw (offset + Bin.header_length + 0x45) (by omega)]
  rw [indexByte_ok bin.raw (offset + Bin.header_length + 0x46) (by omega)]
  rw [indexByte_ok bin.raw (offset + Bin.header_length + 0x47) (by omega)]
  rw [indexByte_ok bin.raw (offset + Bin.header_length + 0x49) (by omega)]
  rw [indexByte_ok bin.raw (offset + Bin.header_length + 0x4A) (by omega)]
  rw [indexByte_ok bin.raw (offset + Bin.header_length + 0x4B) (by omega)]
  rw [read_u32_at_ok bin.console bin.raw (offset + Bin.header_length + 0x9C)
    (offset + Bin.header_length + 0xA0) (by omega) (by omega)]
  rw [read_u32_at_ok bin.console bin.raw (offset + Bin.header_length + 0x24)
    (offset + Bin.header_length + 0x28) (by omega) (by omega)]
  rw [read_u32_at_ok bin.console bin.raw (offset + Bin.header_length + 0x20)
    (offset + Bin.header_length + 0x24) (by omega) (by omega)]
  rw [hnum, hproj]
  simp +decide only [Outcome.ok_bind, List.range_zero, Outcome.mapM_nil]
  rw [get_str_from_offset_ok bin
    (u32_at bin.console bin.raw (offset + Bin.header_length + 0x28)) hname, Outcome.ok_bind]
  rfl

/-- C2 (amended): for every buffer and offset at which an
`AttackMoveType` with no hitboxes and no projectile is successfully
read, and whose boolean flag bytes are all 0 or 1, writing the object
straight back through `overwrite_object` leaves the buffer (and the
whole `Bin`) unchanged. -/
theorem attack_write_back_identity (bin : Bin) (offset : Nat)
    (hbytes : ∀ x ∈ bin.raw, x < 256)
    (hsize : offset + 0x260 ≤ bin.raw.length)
    (hhash : u32_at bin.console bin.raw (offset + Bin.header_length) =
      0xEBF07BB5)
    (hname : u32_at bin.console bin.raw
        (offset + Bin.header_length + 0x28) + Bin.header_length ≤
      bin.raw.length)
    (hnum : u32_at bin.console bin.raw
      (offset + Bin.header_length + 0x24) = 0)
    (hproj : u32_at bin.console bin.raw
      (offset + Bin.header_length + 0x9C) = 0)
    (hbool : ∀ j ∈ amtBoolOffsets,
      bin.raw.getD (offset + Bin.header_length + j) 0 ≤ 1) :
    (bin.get_object_from_offset AttackMoveTypeClass offset >>= fun a =>
      bin.overwrite_object AttackMoveTypeClass AttackMoveTypeWriteable
        offset a) = .ok bin := by
  have hH : Bin.header_length = 64 := rfl
  rw [attack_read_ok bin offset hsize hhash hname hnum hproj,
    Outcome.ok_bind]
  simp only [Bin.overwrite_object, AttackMoveTypeClass,
    AttackMoveTypeWriteable]
  rw [read_u32_at_ok bin.console bin.raw (offset + Bin.header_length)
    (offset + Bin.header_length + 4) (by omega) (by omega), hhash,
    Outcome.ok_bind]
  rw [if_neg (by decide)]
  exact attack_write_value_identity bin (offset + Bin.header_length)
    hbytes (by omega) hnum hbool

/-! ## C3: length invariance and write frame -/

theorem Outcome.bind_eq_ok {α β : Type} {x : Outcome α} {f : α → Outcome β}
    {b : β} (h : (x >>= f) = .ok b) : ∃ a, x = .ok a ∧ f a = .ok b := by
  cases x with
  | ok a => exact ⟨a, rfl, h⟩
  | err e =>
    rw [Outcome.err_bind] at h
    exact Outcome.noConfusion h
  | panic =>
    rw [Outcome.panic_bind] at h
    exact Outcome.noConfusion h

theorem ite_eq_ok_elim {α : Type} {c : Prop} [Decidable c] {t : Outcome α}
    {e : Error} {b : α}
    (h : (if c then Outcome.err e else t) = .ok b) : t = .ok b := by
  by_cases hc : c
  · rw [if_pos hc] at h
    exact absurd h (by intro hh; exact Outcome.noConfusion hh)
  · rwa [if_neg hc] at h

theorem spliceList_ok_parts {raw raw2 repl : List Nat} {a b : Nat}
    (hrepl : repl.length = 4) (hb : b = a + 4)
    (h : spliceList raw a b repl = .ok raw2) :
    raw2.length = raw.length ∧
      ∀ i, i < a ∨ b ≤ i → raw2[i]? = raw[i]? := by
  rw [spliceList] at h
  by_cases hc : a ≤ b ∧ b ≤ raw.length
  · rw [if_pos hc] at h
    injection h with h
    subst h
    have hta : (raw.take a).length = a := by
      rw [List.length_take]
      omega
    constructor
    · simp only [List.length_append, List.length_take, List.length_drop]
      omega
    · intro i hi
      rcases hi with hi | hi
      · rw [List.getElem?_append, if_pos (by rw [List.length_append]; omega)]
        rw [List.getElem?_append, if_pos (by omega)]
        rw [List.getElem?_take, if_pos (by omega)]
      · rw [List.getElem?_append,
          if_neg (by rw [List.length_append]; omega)]
        rw [List.getElem?_drop]
        congr 1
        rw [List.length_append]
        omega
  · rw [if_neg hc] at h
    exact Outcome.noConfusion h

theorem write_u32_bytes (console : Console) (n : Nat) :
    ∃ bs, console.write_u32 n = .ok bs ∧ bs.length = 4 := by
  cases console <;> exact ⟨_, rfl, rfl⟩

/-- Length and frame facts of one float splice. -/
theorem splice_f32_ok_parts {bin bin2 : Bin} {a b v : Nat} (hb : b = a + 4)
    (h : bin.splice_f32 a b v = .ok bin2) :
    bin2.raw.length = bin.raw.length ∧ bin2.console = bin.console ∧
      ∀ i, i < a ∨ b ≤ i → bin2.raw[i]? = bin.raw[i]? := by
  rw [Bin.splice_f32, Console.write_f32] at h
  obtain ⟨bs, hw, hlen⟩ := write_u32_bytes bin.console v
  rw [hw, Outcome.ok_bind] at h
  obtain ⟨raw2, hs, h2⟩ := Outcome.bind_eq_ok h
  injection h2 with h2
  obtain ⟨hl, hf⟩ := spliceList_ok_parts hlen hb hs
  subst h2
  exact ⟨hl, rfl, hf⟩

/-- Length and frame facts of one u32 splice. -/
theorem splice_u32_ok_parts {bin bin2 : Bin} {a b v : Nat} (hb : b = a + 4)
    (h : bin.splice_u32 a b v = .ok bin2) :
    bin2.raw.length = bin.raw.length ∧ bin2.console = bin.console ∧
      ∀ i, i < a ∨ b ≤ i → bin2.raw[i]? = bin.raw[i]? := by
  rw [Bin.splice_u32] at h
  obtain ⟨bs, hw, hlen⟩ := write_u32_bytes bin.console v
  rw [hw, Outcome.ok_bind] at h
  obtain ⟨raw2, hs, h2⟩ := Outcome.bind_eq_ok h
  injection h2 with h2
  obtain ⟨hl, hf⟩ := spliceList_ok_parts hlen hb hs
  subst h2
  exact ⟨hl, rfl, hf⟩

/-- Length and frame facts of one byte store. -/
theorem write_byte_ok_parts {bin bin2 : Bin} {a v : Nat}
    (h : bin.write_byte a v = .ok bin2) :
    bin2.raw.length = bin.raw.length ∧ bin2.console = bin.console ∧
      ∀ i, i < a ∨ a + 1 ≤ i → bin2.raw[i]? = bin.raw[i]? := by
  rw [Bin.write_byte] at h
  by_cases hc : a < bin.raw.length
  · rw [if_pos hc] at h
    injection h with h
    subst h
    refine ⟨by rw [List.length_set], rfl, ?_⟩
    intro i hi
    rw [List.getElem?_set_ne (by omega)]
  · rw [if_neg hc] at h
    exact Outcome.noConfusion h

/-- `AttackMoveRegion::write` never changes the buffer length or the
console. -/
theorem region_write_ok_len {r : AttackMoveRegion} {bin bin2 : Bin}
    {o : Nat} (h : AttackMoveRegion.write r bin o = .ok bin2) :
    bin2.raw.length = bin.raw.length ∧ bin2.console = bin.console := by
  rw [AttackMoveRegion.write] at h
  obtain ⟨b1, h1, h⟩ := Outcome.bind_eq_ok h
  obtain ⟨l1, c1, _⟩ := splice_f32_ok_parts rfl h1
  obtain ⟨b2, h2, h⟩ := Outcome.bind_eq_ok h
  obtain ⟨l2, c2, _⟩ := splice_f32_ok_parts rfl h2
  obtain ⟨b3, h3, h⟩ := Outcome.bind_eq_ok h
  obtain ⟨l3, c3, _⟩ := splice_f32_ok_parts rfl h3
  obtain ⟨b4, h4, h⟩ := Outcome.bind_eq_ok h
  obtain ⟨l4, c4, _⟩ := splice_f32_ok_parts rfl h4
  obtain ⟨b5, h5, h⟩ := Outcome.bind_eq_ok h
  obtain ⟨l5, c5, _⟩ := splice_f32_ok_parts rfl h5
  injection h with h
  subst h
  constructor
  · omega
  · rw [c5, c4, c3, c2, c1]

/-- `ProjectileType::write` never changes the buffer length or the
console. -/
theorem projectile_write_ok_len {p : ProjectileType} {bin bin2 : Bin}
    {o : Nat} (h : ProjectileType.write p bin o = .ok bin2) :
    bin2.raw.length = bin.raw.length ∧ bin2.console = bin.console := by
  rw [ProjectileType.write] at h
  obtain ⟨b1, h1, h⟩ := Outcome.bind_eq_ok h
  obtain ⟨l1, c1, _⟩ := splice_f32_ok_parts rfl h1
  obtain ⟨b2, h2, h⟩ := Outcome.bind_eq_ok h
  obtain ⟨l2, c2, _⟩ := splice_f32_ok_parts rfl h2
  obtain ⟨b3, h3, h⟩ := Outcome.bind_eq_ok h
  obtain ⟨l3, c3, _⟩ := splice_f32_ok_parts rfl h3
  obtain ⟨b4, h4, h⟩ := Outcome.bind_eq_ok h
  obtain ⟨l4, c4, _⟩ := splice_f32_ok_parts rfl h4
  obtain ⟨b5, h5, h⟩ := Outcome.bind_eq_ok h
  obtain ⟨l5, c5, _⟩ := splice_f32_ok_parts rfl h5
  obtain ⟨b6, h6, h⟩ := Outcome.bind_eq_ok h
  obtain ⟨l6, c6, _⟩ := splice_f32_ok_parts rfl h6
  injection h with h
  subst h
  constructor
  · omega
  · rw [c6, c5, c4, c3, c2, c1]

/-- `write_hitboxes` never changes the buffer length or the console. -/
theorem write_hitboxes_ok_len (pairs : List (Nat × AttackMoveRegion)) :
    ∀ {bin bin2 : Bin}, write_hitboxes pairs bin = .ok bin2 →
      bin2.raw.length = bin.raw.length ∧ bin2.console = bin.console := by
  induction pairs with
  | nil =>
    intro bin bin2 h
    rw [write_hitboxes] at h
    injection h with h
    subst h
    exact ⟨rfl, rfl⟩
  | cons p rest ih =>
    intro bin bin2 h
    rw [write_hitboxes] at h
    obtain ⟨bmid, h1, h2⟩ := Outcome.bind_eq_ok h
    obtain ⟨l1, c1⟩ := region_write_ok_len h1
    obtain ⟨l2, c2⟩ := ih h2
    constructor
    · omega
    · rw [c2, c1]

/-- Membership of a byte index in one of a list of `(relative offset,
length)` ranges based at `base`. -/
def inRanges (base i : Nat) (rs : List (Nat × Nat)) : Prop :=
  ∃ r ∈ rs, base + r.1 ≤ i ∧ i < base + r.1 + r.2

instance (base i : Nat) (rs : List (Nat × Nat)) :
    Decidable (inRanges base i rs) := by
  unfold inRanges
  infer_instance

/-- The fixed scalar byte ranges `AttackMoveType::write` stores to at
the object's own position, relative to the object start (each splice
and byte store of `src/classes/player/attacks.rs` lines 455-572). -/
def amtScalarRanges : List (Nat × Nat) :=
  [(0x04, 4), (0x0C, 4), (0x14, 4), (0x2C, 1), (0x2E, 1),
   (0x31, 1), (0x32, 1), (0x33, 1), (0x34, 1), (0x35, 1),
   (0x3A, 1), (0x74, 4), (0x84, 4), (0x88, 4), (0x8C, 4),
   (0x94, 4), (0x98, 4), (0xA0, 4), (0xA4, 4), (0xAC, 4),
   (0x08, 4), (0x10, 4), (0x18, 4), (0x3C, 4), (0x70, 4),
   (0x78, 4), (0x7C, 4), (0x90, 4), (0xA8, 4), (0xB0, 4),
   (0xB4, 4), (0xB8, 4), (0xBC, 4), (0xC0, 4), (0xC4, 4),
   (0xD8, 4), (0xDC, 4), (0xE0, 4), (0xE4, 4), (0xE8, 4),
   (0xEC, 4), (0x120, 4), (0x124, 4), (0x128, 4), (0x12C, 4),
   (0x130, 4), (0x134, 4), (0x138, 4), (0x13C, 4), (0x2D, 1),
   (0x2F, 1), (0x30, 1), (0x36, 1), (0x37, 1), (0x38, 1),
   (0x39, 1), (0x40, 1), (0x41, 1), (0x42, 1), (0x43, 1),
   (0x44, 1), (0x45, 1), (0x46, 1), (0x47, 1), (0x49, 1),
   (0x4A, 1), (0x4B, 1)]

/-- The fixed scalar ranges of `AttackMoveRegion::write`, relative to
the region start. -/
def regionScalarRanges : List (Nat × Nat) :=
  [(0x04, 4), (0x30, 4), (0x38, 4), (0x10, 4), (0x24, 4)]

/-- The fixed scalar ranges of `ProjectileType::write`, relative to the
projectile start. -/
def projScalarRanges : List (Nat × Nat) :=
  [(0x08, 4), (0x14, 4), (0x18, 4), (0x44, 4), (0x48, 4), (0x4C, 4)]

/-- Modelled from the spec (the universal relocation invariant): the
bytes an `overwrite_object` call on an `AttackMoveType` may modify — the
object's declared fixed scalar ranges at its relocated position, and the
declared scalar ranges of its remembered child elements, each at its
relocated (`+ 0x40`) position. -/
def amtDeclaredMutable (object_begin : Nat) (a : AttackMoveType)
    (i : Nat) : Prop :=
  inRanges object_begin i amtScalarRanges ∨
  (∃ o ∈ a.hitbox_offsets,
    inRanges (o + Bin.header_length) i regionScalarRanges) ∨
  (∃ po, a.projectile_offset = some po ∧
    inRanges (po + Bin.header_length) i projScalarRanges)

instance (object_begin : Nat) (a : AttackMoveType) (i : Nat) :
    Decidable (amtDeclaredMutable object_begin a i) := by
  unfold amtDeclaredMutable
  have : Decidable (∃ po, a.projectile_offset = some po ∧
      inRanges (po + Bin.header_length) i projScalarRanges) := by
    cases hpo : a.projectile_offset with
    | none => exact isFalse (by rintro ⟨po, hh, _⟩; cases hh)
    | some po =>
      refine decidable_of_iff
        (inRanges (po + Bin.header_length) i projScalarRanges) ?_
      constructor
      · intro hh
        exact ⟨po, rfl, hh⟩
      · rintro ⟨po2, hh, hh2⟩
        injection hh with hh
        rwa [hh]
  infer_instance

/-- The tail of `AttackMoveType.write` after the 67 scalar stores: a
successful hitbox/projectile pass keeps the buffer length, and is the
identity when there are no hitboxes and no projectile. -/
theorem attack_write_tail_parts (a : AttackMoveType) (hofs : List Nat)
    {b0 bin2 : Bin}
    (h : (do
        let bh ← write_hitboxes (hofs.zip a.hitboxes) b0
        match a.projectile, a.projectile_offset with
          | some p, some po => ProjectileType.write p bh po
          | _, _ => Outcome.ok bh) = Outcome.ok bin2) :
    bin2.raw.length = b0.raw.length ∧
    (a.hitboxes = [] ∧ a.projectile = none → bin2 = b0) := by
  obtain ⟨bh, hbh, h⟩ := Outcome.bind_eq_ok h
  obtain ⟨lbh, cbh⟩ := write_hitboxes_ok_len _ hbh
  have hfin : bin2.raw.length = bh.raw.length ∧
      (a.projectile = none → bin2 = bh) := by
    cases hp : a.projectile with
    | none =>
      cases hpo : a.projectile_offset with
      | none =>
        rw [hp, hpo] at h
        injection h with h
        subst h
        exact ⟨rfl, fun _ => rfl⟩
      | some po =>
        rw [hp, hpo] at h
        injection h with h
        subst h
        exact ⟨rfl, fun _ => rfl⟩
    | some p =>
      cases hpo : a.projectile_offset with
      | none =>
        rw [hp, hpo] at h
        injection h with h
        subst h
        exact ⟨rfl, fun hc => absurd hc (by simp)⟩
      | some po =>
        rw [hp, hpo] at h
        obtain ⟨lp, cp⟩ := projectile_write_ok_len h
        exact ⟨lp, fun hc => absurd hc (by simp)⟩
  refine ⟨by omega, ?_⟩
  rintro ⟨hhb, hpj⟩
  have hbh0 : bh = b0 := by
    rw [hhb, List.zip_nil_right, write_hitboxes] at hbh
    injection hbh with hbh
    exact hbh.symm
  rw [hfin.2 hpj, hbh0]

set_option maxHeartbeats 4000000 in
/-- C3 (amended): a successful `overwrite_object` of an
`AttackMoveType` never changes the buffer length; and when the object
carries no hitboxes and no projectile, only bytes inside the class's
declared fixed scalar ranges (at the object's relocated position) are
modified.  (With hitboxes or a projectile the claim's frame part fails:
their fields are written at unrelocated offsets, see C4.) -/
theorem overwrite_attack_len_frame (bin bin2 : Bin) (offset : Nat)
    (a : AttackMoveType)
    (h : bin.overwrite_object AttackMoveTypeClass AttackMoveTypeWriteable
      offset a = .ok bin2) :
    bin2.raw.length = bin.raw.length ∧
    (a.hitboxes = [] ∧ a.projectile = none →
      ∀ i, ¬ inRanges (offset + Bin.header_length) i amtScalarRanges →
        bin2.raw[i]? = bin.raw[i]?) := by
  simp only [Bin.overwrite_object, AttackMoveTypeClass,
    AttackMoveTypeWriteable] at h
  obtain ⟨hv, hread, h⟩ := Outcome.bind_eq_ok h
  replace h := ite_eq_ok_elim h
  simp only [AttackMoveType.write] at h
  obtain ⟨b1, h1, h⟩ := Outcome.bind_eq_ok h
  obtain ⟨l1, c1, f1⟩ := splice_f32_ok_parts (by omega) h1
  obtain ⟨b2, h2, h⟩ := Outcome.bind_eq_ok h
  obtain ⟨l2, c2, f2⟩ := splice_f32_ok_parts (by omega) h2
  obtain ⟨b3, h3, h⟩ := Outcome.bind_eq_ok h
  obtain ⟨l3, c3, f3⟩ := splice_f32_ok_parts (by omega) h3
  obtain ⟨b4, h4, h⟩ := Outcome.bind_eq_ok h
  obtain ⟨l4, c4, f4⟩ := write_byte_ok_parts h4
  obtain ⟨b5, h5, h⟩ := Outcome.bind_eq_ok h
  obtain ⟨l5, c5, f5⟩ := write_byte_ok_parts h5
  obtain ⟨b6, h6, h⟩ := Outcome.bind_eq_ok h
  obtain ⟨l6, c6, f6⟩ := write_byte_ok_parts h6
  obtain ⟨b7, h7, h⟩ := Outcome.bind_eq_ok h
  obtain ⟨l7, c7, f7⟩ := write_byte_ok_parts h7
  obtain ⟨b8, h8, h⟩ := Outcome.bind_eq_ok h
  obtain ⟨l8, c8, f8⟩ := write_byte_ok_parts h8
  obtain ⟨b9, h9, h⟩ := Outcome.bind_eq_ok h
  obtain ⟨l9, c9, f9⟩ := write_byte_ok_parts h9
  obtain ⟨b10, h10, h⟩ := Outcome.bind_eq_ok h
  obtain ⟨l10, c10, f10⟩ := write_byte_ok_parts h10
  obtain ⟨b11, h11, h⟩ := Outcome.bind_eq_ok h
  obtain ⟨l11, c11, f11⟩ := write_byte_ok_parts h11
  obtain ⟨b12, h12, h⟩ := Outcome.bind_eq_ok h
  obtain ⟨l12, c12, f12⟩ := splice_f32_ok_parts (by omega) h12
  obtain ⟨b13, h13, h⟩ := Outcome.bind_eq_ok h
  obtain ⟨l13, c13, f13⟩ := splice_f32_ok_parts (by omega) h13
  obtain ⟨b14, h14, h⟩ := Outcome.bind_eq_ok h
  obtain ⟨l14, c14, f14⟩ := splice_f32_ok_parts (by omega) h14
  obtain ⟨b15, h15, h⟩ := Outcome.bind_eq_ok h
  obtain ⟨l15, c15, f15⟩ := splice_f32_ok_parts (by omega) h15
  obtain ⟨b16, h16, h⟩ := Outcome.bind_eq_ok h
  obtain ⟨l16, c16, f16⟩ := splice_f32_ok_parts (by omega) h16
  obtain ⟨b17, h17, h⟩ := Outcome.bind_eq_ok h
  obtain ⟨l17, c17, f17⟩ := splice_f32_ok_parts (by omega) h17
  obtain ⟨b18, h18, h⟩ := Outcome.bind_eq_ok h
  obtain ⟨l18, c18, f18⟩ := splice_f32_ok_parts (by omega) h18
  obtain ⟨b19, h19, h⟩ := Outcome.bind_eq_ok h
  obtain ⟨l19, c19, f19⟩ := splice_f32_ok_parts (by omega) h19
  obtain ⟨b20, h20, h⟩ := Outcome.bind_eq_ok h
  obtain ⟨l20, c20, f20⟩ := splice_f32_ok_parts (by omega) h20
  obtain ⟨b21, h21, h⟩ := Outcome.bind_eq_ok h
  obtain ⟨l21, c21, f21⟩ := splice_f32_ok_parts (by omega) h21
  obtain ⟨b22, h22, h⟩ := Outcome.bind_eq_ok h
  obtain ⟨l22, c22, f22⟩ := splice_f32_ok_parts (by omega) h22
  obtain ⟨b23, h23, h⟩ := Outcome.bind_eq_ok h
  obtain ⟨l23, c23, f23⟩ := splice_f32_ok_parts (by omega) h23
  obtain ⟨b24, h24, h⟩ := Outcome.bind_eq_ok h
  obtain ⟨l24, c24, f24⟩ := splice_u32_ok_parts (by omega) h24
  obtain ⟨b25, h25, h⟩ := Outcome.bind_eq_ok h
  obtain ⟨l25, c25, f25⟩ := splice_f32_ok_parts (by omega) h25
  obtain ⟨b26, h26, h⟩ := Outcome.bind_eq_ok h
  obtain ⟨l26, c26, f26⟩ := splice_f32_ok_parts (by omega) h26
  obtain ⟨b27, h27, h⟩ := Outcome.bind_eq_ok h
  obtain ⟨l27, c27, f27⟩ := splice_f32_ok_parts (by omega) h27
  obtain ⟨b28, h28, h⟩ := Outcome.bind_eq_ok h
  obtain ⟨l28, c28, f28⟩ := splice_f32_ok_parts (by omega) h28
  obtain ⟨b29, h29, h⟩ := Outcome.bind_eq_ok h
  obtain ⟨l29, c29, f29⟩ := splice_f32_ok_parts (by omega) h29
  obtain ⟨b30, h30, h⟩ := Outcome.bind_eq_ok h
  obtain ⟨l30, c30, f30⟩ := splice_f32_ok_parts (by omega) h30
  obtain ⟨b31, h31, h⟩ := Outcome.bind_eq_ok h
  obtain ⟨l31, c31, f31⟩ := splice_f32_ok_parts (by omega) h31
  obtain ⟨b32, h32, h⟩ := Outcome.bind_eq_ok h
  obtain ⟨l32, c32, f32⟩ := splice_f32_ok_parts (by omega) h32
  obtain ⟨b33, h33, h⟩ := Outcome.bind_eq_ok h
  obtain ⟨l33, c33, f33⟩ := splice_f32_ok_parts (by omega) h33
  obtain ⟨b34, h34, h⟩ := Outcome.bind_eq_ok h
  obtain ⟨l34, c34, f34⟩ := splice_f32_ok_parts (by omega) h34
  obtain ⟨b35, h35, h⟩ := Outcome.bind_eq_ok h
  obtain ⟨l35, c35, f35⟩ := splice_f32_ok_parts (by omega) h35
  obtain ⟨b36, h36, h⟩ := Outcome.bind_eq_ok h
  obtain ⟨l36, c36, f36⟩ := splice_f32_ok_parts (by omega) h36
  obtain ⟨b37, h37, h⟩ := Outcome.bind_eq_ok h
  obtain ⟨l37, c37, f37⟩ := splice_f32_ok_parts (by omega) h37
  obtain ⟨b38, h38, h⟩ := Outcome.bind_eq_ok h
  obtain ⟨l38, c38, f38⟩ := splice_f32_ok_parts (by omega) h38
  obtain ⟨b39, h39, h⟩ := Outcome.bind_eq_ok h
  obtain ⟨l39, c39, f39⟩ := splice_f32_ok_parts (by omega) h39
  obtain ⟨b40, h40, h⟩ := Outcome.bind_eq_ok h
  obtain ⟨l40, c40, f40⟩ := splice_f32_ok_parts (by omega) h40
  obtain ⟨b41, h41, h⟩ := Outcome.bind_eq_ok h
  obtain ⟨l41, c41, f41⟩ := splice_f32_ok_parts (by omega) h41
  obtain ⟨b42, h42, h⟩ := Outcome.bind_eq_ok h
  obtain ⟨l42, c42, f42⟩ := splice_f32_ok_parts (by omega) h42
  obtain ⟨b43, h43, h⟩ := Outcome.bind_eq_ok h
  obtain ⟨l43, c43, f43⟩ := splice_f32_ok_parts (by omega) h43
  obtain ⟨b44, h44, h⟩ := Outcome.bind_eq_ok h
  obtain ⟨l44, c44, f44⟩ := splice_f32_ok_parts (by omega) h44
  obtain ⟨b45, h45, h⟩ := Outcome.bind_eq_ok h
  obtain ⟨l45, c45, f45⟩ := splice_f32_ok_parts (by omega) h45
  obtain ⟨b46, h46, h⟩ := Outcome.bind_eq_ok h
  obtain ⟨l46, c46, f46⟩ := splice_f32_ok_parts (by omega) h46
  obtain ⟨b47, h47, h⟩ := Outcome.bind_eq_ok h
  obtain ⟨l47, c47, f47⟩ := splice_f32_ok_parts (by omega) h47
  obtain ⟨b48, h48, h⟩ := Outcome.bind_eq_ok h
  obtain ⟨l48, c48, f48⟩ := splice_f32_ok_parts (by omega) h48
  obtain ⟨b49, h49, h⟩ := Outcome.bind_eq_ok h
  obtain ⟨l49, c49, f49⟩ := splice_f32_ok_parts (by omega) h49
  obtain ⟨b50, h50, h⟩ := Outcome.bind_eq_ok h
  obtain ⟨l50, c50, f50⟩ := write_byte_ok_parts h50
  obtain ⟨b51, h51, h⟩ := Outcome.bind_eq_ok h
  obtain ⟨l51, c51, f51⟩ := write_byte_ok_parts h51
  obtain ⟨b52, h52, h⟩ := Outcome.bind_eq_ok h
  obtain ⟨l52, c52, f52⟩ := write_byte_ok_parts h52
  obtain ⟨b53, h53, h⟩ := Outcome.bind_eq_ok h
  obtain ⟨l53, c53, f53⟩ := write_byte_ok_parts h53
  obtain ⟨b54, h54, h⟩ := Outcome.bind_eq_ok h
  obtain ⟨l54, c54, f54⟩ := write_byte_ok_parts h54
  obtain ⟨b55, h55, h⟩ := Outcome.bind_eq_ok h
  obtain ⟨l55, c55, f55⟩ := write_byte_ok_parts h55
  obtain ⟨b56, h56, h⟩ := Outcome.bind_eq_ok h
  obtain ⟨l56, c56, f56⟩ := write_byte_ok_parts h56
  obtain ⟨b57, h57, h⟩ := Outcome.bind_eq_ok h
  obtain ⟨l57, c57, f57⟩ := write_byte_ok_parts h57
  obtain ⟨b58, h58, h⟩ := Outcome.bind_eq_ok h
  obtain ⟨l58, c58, f58⟩ := write_byte_ok_parts h58
  obtain ⟨b59, h59, h⟩ := Outcome.bind_eq_ok h
  obtain ⟨l59, c59, f59⟩ := write_byte_ok_parts h59
  obtain ⟨b60, h60, h⟩ := Outcome.bind_eq_ok h
  obtain ⟨l60, c60, f60⟩ := write_byte_ok_parts h60
  obtain ⟨b61, h61, h⟩ := Outcome.bind_eq_ok h
  obtain ⟨l61, c61, f61⟩ := write_byte_ok_parts h61
  obtain ⟨b62, h62, h⟩ := Outcome.bind_eq_ok h
  obtain ⟨l62, c62, f62⟩ := write_byte_ok_parts h62
  obtain ⟨b63, h63, h⟩ := Outcome.bind_eq_ok h
  obtain ⟨l63, c63, f63⟩ := write_byte_ok_parts h63
  obtain ⟨b64, h64, h⟩ := Outcome.bind_eq_ok h
  obtain ⟨l64, c64, f64⟩ := write_byte_ok_parts h64
  obtain ⟨b65, h65, h⟩ := Outcome.bind_eq_ok h
  obtain ⟨l65, c65, f65⟩ := write_byte_ok_parts h65
  obtain ⟨b66, h66, h⟩ := Outcome.bind_eq_ok h
  obtain ⟨l66, c66, f66⟩ := write_byte_ok_parts h66
  obtain ⟨b67, h67, h⟩ := Outcome.bind_eq_ok h
  obtain ⟨l67, c67, f67⟩ := write_byte_ok_parts h67
  obtain ⟨num, hnumr, h⟩ := Outcome.bind_eq_ok h
  have hframe67 : ∀ i,
      ¬ inRanges (offset + Bin.header_length) i amtScalarRanges →
      b67.raw[i]? = bin.raw[i]? := by
    intro i hi
    have hr1 : i < offset + Bin.header_length + 0x04 ∨ offset + Bin.header_length + 0x08 ≤ i := by
      by_contra hc
      push_neg at hc
      exact hi ⟨(0x04, 4), by decide, by omega⟩
    have hr2 : i < offset + Bin.header_length + 0x0C ∨ offset + Bin.header_length + 0x10 ≤ i := by
      by_contra hc
      push_neg at hc
      exact hi ⟨(0x0C, 4), by decide, by omega⟩
    have hr3 : i < offset + Bin.header_length + 0x14 ∨ offset + Bin.header_length + 0x18 ≤ i := by
      by_contra hc
      push_neg at hc
      exact hi ⟨(0x14, 4), by decide, by omega⟩
    have hr4 : i < offset + Bin.header_length + 0x2C ∨ offset + Bin.header_length + 0x2C + 1 ≤ i := by
      by_contra hc
      push_neg at hc
      exact hi ⟨(0x2C, 1), by decide, by omega⟩
    have hr5 : i < offset + Bin.header_length + 0x2E ∨ offset + Bin.header_length + 0x2E + 1 ≤ i := by
      by_contra hc
      push_neg at hc
      exact hi ⟨(0x2E, 1), by decide, by omega⟩
    have hr6 : i < offset + Bin.header_length + 0x31 ∨ offset + Bin.header_length + 0x31 + 1 ≤ i := by
      by_contra hc
      push_neg at hc
      exact hi ⟨(0x31, 1), by decide, by omega⟩
    have hr7 : i < offset + Bin.header_length + 0x32 ∨ offset + Bin.header_length + 0x32 + 1 ≤ i := by
      by_contra hc
      push_neg at hc
      exact hi ⟨(0x32, 1), by decide, by omega⟩
    have hr8 : i < offset + Bin.header_length + 0x33 ∨ offset + Bin.header_length + 0x33 + 1 ≤ i := by
      by_contra hc
      push_neg at hc
      exact hi ⟨(0x33, 1), by decide, by omega⟩
    have hr9 : i < offset + Bin.header_length + 0x34 ∨ offset + Bin.header_length + 0x34 + 1 ≤ i := by
      by_contra hc
      push_neg at hc
      exact hi ⟨(0x34, 1), by decide, by omega⟩
    have hr10 : i < offset + Bin.header_length + 0x35 ∨ offset + Bin.header_length + 0x35 + 1 ≤ i := by
      by_contra hc
      push_neg at hc
      exact hi ⟨(0x35, 1), by decide, by omega⟩
    have hr11 : i < offset + Bin.header_length + 0x3A ∨ offset + Bin.header_length + 0x3A + 1 ≤ i := by
      by_contra hc
      push_neg at hc
      exact hi ⟨(0x3A, 1), by decide, by omega⟩
    have hr12 : i < offset + Bin.header_length + 0x74 ∨ offset + Bin.header_length + 0x78 ≤ i := by
      by_contra hc
      push_neg at hc
      exact hi ⟨(0x74, 4), by decide, by omega⟩
    have hr13 : i < offset + Bin.header_length + 0x84 ∨ offset + Bin.header_length + 0x88 ≤ i := by
      by_contra hc
      push_neg at hc
      exact hi ⟨(0x84, 4), by decide, by omega⟩
    have hr14 : i < offset + Bin.header_length + 0x88 ∨ offset + Bin.header_length + 0x8C ≤ i := by
      by_contra hc
      push_neg at hc
      exact hi ⟨(0x88, 4), by decide, by omega⟩
    have hr15 : i < offset + Bin.header_length + 0x8C ∨ offset + Bin.header_length + 0x90 ≤ i := by
      by_contra hc
      push_neg at hc
      exact hi ⟨(0x8C, 4), by decide, by omega⟩
    have hr16 : i < offset + Bin.header_length + 0x94 ∨ offset + Bin.header_length + 0x98 ≤ i := by
      by_contra hc
      push_neg at hc
      exact hi ⟨(0x94, 4), by decide, by omega⟩
    have hr17 : i < offset + Bin.header_length + 0x98 ∨ offset + Bin.header_length + 0x9C ≤ i := by
      by_contra hc
      push_neg at hc
      exact hi ⟨(0x98, 4), by decide, by omega⟩
    have hr18 : i < offset + Bin.header_length + 0xA0 ∨ offset + Bin.header_length + 0xA4 ≤ i := by
      by_contra hc
      push_neg at hc
      exact hi ⟨(0xA0, 4), by decide, by omega⟩
    have hr19 : i < offset + Bin.header_length + 0xA4 ∨ offset + Bin.header_length + 0xA8 ≤ i := by
      by_contra hc
      push_neg at hc
      exact hi ⟨(0xA4, 4), by decide, by omega⟩
    have hr20 : i < offset + Bin.header_length + 0xAC ∨ offset + Bin.header_length + 0xB0 ≤ i := by
      by_contra hc
      push_neg at hc
      exact hi ⟨(0xAC, 4), by decide, by omega⟩
    have hr21 : i < offset + Bin.header_length + 0x08 ∨ offset + Bin.header_length + 0x0C ≤ i := by
      by_contra hc
      push_neg at hc
      exact hi ⟨(0x08, 4), by decide, by omega⟩
    have hr22 : i < offset + Bin.header_length + 0x10 ∨ offset + Bin.header_length + 0x14 ≤ i := by
      by_contra hc
      push_neg at hc
      exact hi ⟨(0x10, 4), by decide, by omega⟩
    have hr23 : i < offset + Bin.header_length + 0x18 ∨ offset + Bin.header_length + 0x1C ≤ i := by
      by_contra hc
      push_neg at hc
      exact hi ⟨(0x18, 4), by decide, by omega⟩
    have hr24 : i < offset + Bin.header_length + 0x3C ∨ offset + Bin.header_length + 0x40 ≤ i := by
      by_contra hc
      push_neg at hc
      exact hi ⟨(0x3C, 4), by decide, by omega⟩
    have hr25 : i < offset + Bin.header_length + 0x70 ∨ offset + Bin.header_length + 0x74 ≤ i := by
      by_contra hc
      push_neg at hc
      exact hi ⟨(0x70, 4), by decide, by omega⟩
    have hr26 : i < offset + Bin.header_length + 0x78 ∨ offset + Bin.header_length + 0x7C ≤ i := by
      by_contra hc
      push_neg at hc
      exact hi ⟨(0x78, 4), by decide, by omega⟩
    have hr27 : i < offset + Bin.header_length + 0x7C ∨ offset + Bin.header_length + 0x80 ≤ i := by
      by_contra hc
      push_neg at hc
      exact hi ⟨(0x7C, 4), by decide, by omega⟩
    have hr28 : i < offset + Bin.header_length + 0x90 ∨ offset + Bin.header_length + 0x94 ≤ i := by
      by_contra hc
      push_neg at hc
      exact hi ⟨(0x90, 4), by decide, by omega⟩
    have hr29 : i < offset + Bin.header_length + 0xA8 ∨ offset + Bin.header_length + 0xAC ≤ i := by
      by_contra hc
      push_neg at hc
      exact hi ⟨(0xA8, 4), by decide, by omega⟩
    have hr30 : i < offset + Bin.header_length + 0xB0 ∨ offset + Bin.header_length + 0xB4 ≤ i := by
      by_contra hc
      push_neg at hc
      exact hi ⟨(0xB0, 4), by decide, by omega⟩
    have hr31 : i < offset + Bin.header_length + 0xB4 ∨ offset + Bin.header_length + 0xB8 ≤ i := by
      by_contra hc
      push_neg at hc
      exact hi ⟨(0xB4, 4), by decide, by omega⟩
    have hr32 : i < offset + Bin.header_length + 0xB8 ∨ offset + Bin.header_length + 0xBC ≤ i := by
      by_contra hc
      push_neg at hc
      exact hi ⟨(0xB8, 4), by decide, by omega⟩
    have hr33 : i < offset + Bin.header_length + 0xBC ∨ offset + Bin.header_length + 0xC0 ≤ i := by
      by_contra hc
      push_neg at hc
      exact hi ⟨(0xBC, 4), by decide, by omega⟩
    have hr34 : i < offset + Bin.header_length + 0xC0 ∨ offset + Bin.header_length + 0xC4 ≤ i := by
      by_contra hc
      push_neg at hc
      exact hi ⟨(0xC0, 4), by decide, by omega⟩
    have hr35 : i < offset + Bin.header_length + 0xC4 ∨ offset + Bin.header_length + 0xC8 ≤ i := by
      by_contra hc
      push_neg at hc
      exact hi ⟨(0xC4, 4), by decide, by omega⟩
    have hr36 : i < offset + Bin.header_length + 0xD8 ∨ offset + Bin.header_length + 0xDC ≤ i := by
      by_contra hc
      push_neg at hc
      exact hi ⟨(0xD8, 4), by decide, by omega⟩
    have hr37 : i < offset + Bin.header_length + 0xDC ∨ offset + Bin.header_length + 0xE0 ≤ i := by
      by_contra hc
      push_neg at hc
      exact hi ⟨(0xDC, 4), by decide, by omega⟩
    have hr38 : i < offset + Bin.header_length + 0xE0 ∨ offset + Bin.header_length + 0xE4 ≤ i := by
      by_contra hc
      push_neg at hc
      exact hi ⟨(0xE0, 4), by decide, by omega⟩
    have hr39 : i < offset + Bin.header_length + 0xE4 ∨ offset + Bin.header_length + 0xE8 ≤ i := by
      by_contra hc
      push_neg at hc
      exact hi ⟨(0xE4, 4), by decide, by omega⟩
    have hr40 : i < offset + Bin.header_length + 0xE8 ∨ offset + Bin.header_length + 0xEC ≤ i := by
      by_contra hc
      push_neg at hc
      exact hi ⟨(0xE8, 4), by decide, by omega⟩
    have hr41 : i < offset + Bin.header_length + 0xEC ∨ offset + Bin.header_length + 0xF0 ≤ i := by
      by_contra hc
      push_neg at hc
      exact hi ⟨(0xEC, 4), by decide, by omega⟩
    have hr42 : i < offset + Bin.header_length + 0x120 ∨ offset + Bin.header_length + 0x124 ≤ i := by
      by_contra hc
      push_neg at hc
      exact hi ⟨(0x120, 4), by decide, by omega⟩
    have hr43 : i < offset + Bin.header_length + 0x124 ∨ offset + Bin.header_length + 0x128 ≤ i := by
      by_contra hc
      push_neg at hc
      exact hi ⟨(0x124, 4), by decide, by omega⟩
    have hr44 : i < offset + Bin.header_length + 0x128 ∨ offset + Bin.header_length + 0x12C ≤ i := by
      by_contra hc
      push_neg at hc
      exact hi ⟨(0x128, 4), by decide, by omega⟩
    have hr45 : i < offset + Bin.header_length + 0x12C ∨ offset + Bin.header_length + 0x130 ≤ i := by
      by_contra hc
      push_neg at hc
      exact hi ⟨(0x12C, 4), by decide, by omega⟩
    have hr46 : i < offset + Bin.header_length + 0x130 ∨ offset + Bin.header_length + 0x134 ≤ i := by
      by_contra hc
      push_neg at hc
      exact hi ⟨(0x130, 4), by decide, by omega⟩
    have hr47 : i < offset + Bin.header_length + 0x134 ∨ offset + Bin.header_length + 0x138 ≤ i := by
      by_contra hc
      push_neg at hc
      exact hi ⟨(0x134, 4), by decide, by omega⟩
    have hr48 : i < offset + Bin.header_length + 0x138 ∨ offset + Bin.header_length + 0x13C ≤ i := by
      by_contra hc
      push_neg at hc
      exact hi ⟨(0x138, 4), by decide, by omega⟩
    have hr49 : i < offset + Bin.header_length + 0x13C ∨ offset + Bin.header_length + 0x140 ≤ i := by
      by_contra hc
      push_neg at hc
      exact hi ⟨(0x13C, 4), by decide, by omega⟩
    have hr50 : i < offset + Bin.header_length + 0x2D ∨ offset + Bin.header_length + 0x2D + 1 ≤ i := by
      by_contra hc
      push_neg at hc
      exact hi ⟨(0x2D, 1), by decide, by omega⟩
    have hr51 : i < offset + Bin.header_length + 0x2F ∨ offset + Bin.header_length + 0x2F + 1 ≤ i := by
      by_contra hc
      push_neg at hc
      exact hi ⟨(0x2F, 1), by decide, by omega⟩
    have hr52 : i < offset + Bin.header_length + 0x30 ∨ offset + Bin.header_length + 0x30 + 1 ≤ i := by
      by_contra hc
      push_neg at hc
      exact hi ⟨(0x30, 1), by decide, by omega⟩
    have hr53 : i < offset + Bin.header_length + 0x36 ∨ offset + Bin.header_length + 0x36 + 1 ≤ i := by
      by_contra hc
      push_neg at hc
      exact hi ⟨(0x36, 1), by decide, by omega⟩
    have hr54 : i < offset + Bin.header_length + 0x37 ∨ offset + Bin.header_length + 0x37 + 1 ≤ i := by
      by_contra hc
      push_neg at hc
      exact hi ⟨(0x37, 1), by decide, by omega⟩
    have hr55 : i < offset + Bin.header_length + 0x38 ∨ offset + Bin.header_length + 0x38 + 1 ≤ i := by
      by_contra hc
      push_neg at hc
      exact hi ⟨(0x38, 1), by decide, by omega⟩
    have hr56 : i < offset + Bin.header_length + 0x39 ∨ offset + Bin.header_length + 0x39 + 1 ≤ i := by
      by_contra hc
      push_neg at hc
      exact hi ⟨(0x39, 1), by decide, by omega⟩
    have hr57 : i < offset + Bin.header_length + 0x40 ∨ offset + Bin.header_length + 0x40 + 1 ≤ i := by
      by_contra hc
      push_neg at hc
      exact hi ⟨(0x40, 1), by decide, by omega⟩
    have hr58 : i < offset + Bin.header_length + 0x41 ∨ offset + Bin.header_length + 0x41 + 1 ≤ i := by
      by_contra hc
      push_neg at hc
      exact hi ⟨(0x41, 1), by decide, by omega⟩
    have hr59 : i < offset + Bin.header_length + 0x42 ∨ offset + Bin.header_length + 0x42 + 1 ≤ i := by
      by_contra hc
      push_neg at hc
      exact hi ⟨(0x42, 1), by decide, by omega⟩
    have hr60 : i < offset + Bin.header_length + 0x43 ∨ offset + Bin.header_length + 0x43 + 1 ≤ i := by
      by_contra hc
      push_neg at hc
      exact hi ⟨(0x43, 1), by decide, by omega⟩
    have hr61 : i < offset + Bin.header_length + 0x44 ∨ offset + Bin.header_length + 0x44 + 1 ≤ i := by
      by_contra hc
      push_neg at hc
      exact hi ⟨(0x44, 1), by decide, by omega⟩
    have hr62 : i < offset + Bin.header_length + 0x45 ∨ offset + Bin.header_length + 0x45 + 1 ≤ i := by
      by_contra hc
      push_neg at hc
      exact hi ⟨(0x45, 1), by decide, by omega⟩
    have hr63 : i < offset + Bin.header_length + 0x46 ∨ offset + Bin.header_length + 0x46 + 1 ≤ i := by
      by_contra hc
      push_neg at hc
      exact hi ⟨(0x46, 1), by decide, by omega⟩
    have hr64 : i < offset + Bin.header_length + 0x47 ∨ offset + Bin.header_length + 0x47 + 1 ≤ i := by
      by_contra hc
      push_neg at hc
      exact hi ⟨(0x47, 1), by decide, by omega⟩
    have hr65 : i < offset + Bin.header_length + 0x49 ∨ offset + Bin.header_length + 0x49 + 1 ≤ i := by
      by_contra hc
      push_neg at hc
      exact hi ⟨(0x49, 1), by decide, by omega⟩
    have hr66 : i < offset + Bin.header_length + 0x4A ∨ offset + Bin.header_length + 0x4A + 1 ≤ i := by
      by_contra hc
      push_neg at hc
      exact hi ⟨(0x4A, 1), by decide, by omega⟩
    have hr67 : i < offset + Bin.header_length + 0x4B ∨ offset + Bin.header_length + 0x4B + 1 ≤ i := by
      by_contra hc
      push_neg at hc
      exact hi ⟨(0x4B, 1), by decide, by omega⟩
    rw [f67 i hr67, f66 i hr66, f65 i hr65, f64 i hr64, f63 i hr63, f62 i hr62, f61 i hr61, f60 i hr60, f59 i hr59, f58 i hr58, f57 i hr57, f56 i hr56, f55 i hr55, f54 i hr54, f53 i hr53, f52 i hr52, f51 i hr51, f50 i hr50, f49 i hr49, f48 i hr48, f47 i hr47, f46 i hr46, f45 i hr45, f44 i hr44, f43 i hr43, f42 i hr42, f41 i hr41, f40 i hr40, f39 i hr39, f38 i hr38, f37 i hr37, f36 i hr36, f35 i hr35, f34 i hr34, f33 i hr33, f32 i hr32, f31 i hr31, f30 i hr30, f29 i hr29, f28 i hr28, f27 i hr27, f26 i hr26, f25 i hr25, f24 i hr24, f23 i hr23, f22 i hr22, f21 i hr21, f20 i hr20, f19 i hr19, f18 i hr18, f17 i hr17, f16 i hr16, f15 i hr15, f14 i hr14, f13 i hr13, f12 i hr12, f11 i hr11, f10 i hr10, f9 i hr9, f8 i hr8, f7 i hr7, f6 i hr6, f5 i hr5, f4 i hr4, f3 i hr3, f2 i hr2, f1 i hr1]
  have htail : bin2.raw.length = b67.raw.length ∧
      (a.hitboxes = [] ∧ a.projectile = none → bin2 = b67) := by
    split at h
    · obtain ⟨hs, hhs, h⟩ := Outcome.bind_eq_ok h
      rw [Outcome.ok_bind] at h
      exact attack_write_tail_parts a _ h
    · rw [Outcome.ok_bind] at h
      exact attack_write_tail_parts a _ h
  refine ⟨by omega, ?_⟩
  intro hc i hi
  rw [htail.2 hc]
  exact hframe67 i hi

/-! ## Concrete buffers for witnesses and counterexamples -/

set_option maxRecDepth 8192

/-- A 0x2A0-byte buffer that is all zero except the `Game::AttackMoveType`
hash `0xEBF07BB5` serialised little-endian at the relocated offset 0x40:
a minimal well-formed serialised attack. -/
def wraw : List Nat :=
  ((((List.replicate 0x2A0 0).set 0x40 0xB5).set 0x41 0x7B).set
    0x42 0xF0).set 0x43 0xEB

/-- `wraw` wrapped as a PC-console `Bin`. -/
def wbin : Bin := ⟨[], Console.PC, wraw⟩

/-- C2 witness: on the minimal attack buffer, reading the object at
offset 0 and writing it back returns the buffer unchanged. -/
theorem attack_write_back_identity_witness :
    (wbin.get_object_from_offset AttackMoveTypeClass 0 >>= fun a =>
      wbin.overwrite_object AttackMoveTypeClass AttackMoveTypeWriteable
        0 a) = .ok wbin :=
  attack_write_back_identity wbin 0 (by decide) (by decide) (by decide)
    (by decide) (by decide) (by decide) (by decide)

/-- Like `wraw` but byte 0x6C (the `endlag` boolean at object offset
0x2C) holds the value 2, and only 0x260 bytes (the object then ends
flush with the buffer). -/
def b0raw : List Nat :=
  (((((List.replicate 0x260 0).set 0x40 0xB5).set 0x41 0x7B).set
    0x42 0xF0).set 0x43 0xEB).set 0x6C 2

/-- `b0raw` wrapped as a PC-console `Bin`. -/
def bin0 : Bin := ⟨[], Console.PC, b0raw⟩

/-- C2 counterexample: reading the attack whose boolean byte at 0x6C is
2 and immediately writing it back normalises that byte to 1 — the
buffer is not left byte-identical. -/
theorem attack_write_back_changes_byte :
    (bin0.get_object_from_offset AttackMoveTypeClass 0 >>= fun a =>
      bin0.overwrite_object AttackMoveTypeClass AttackMoveTypeWriteable
        0 a) = .ok ⟨[], Console.PC, b0raw.set 0x6C 1⟩ ∧
    b0raw.set 0x6C 1 ≠ b0raw := by
  constructor
  · decide
  · decide

/-- The `AttackMoveType` value serialised in `wbin` (no hitboxes, no
projectile, every scalar zero). -/
def wa : AttackMoveType := attack_read_value wbin 0x40

/-- C3 witness: overwriting `wbin` with `wa` at offset 0 succeeds and
returns `wbin` itself, so the frame theorem applies to it. -/
theorem overwrite_attack_len_frame_witness :
    wbin.raw.length = wbin.raw.length ∧
    (wa.hitboxes = [] ∧ wa.projectile = none →
      ∀ i, ¬ inRanges (0 + Bin.header_length) i amtScalarRanges →
        wbin.raw[i]? = wbin.raw[i]?) :=
  overwrite_attack_len_frame wbin wbin 0 wa (by decide)

/-- A 0x2E0-byte buffer holding an `AttackMoveType` at offset 0 with one
hitbox: the hitbox-offset table at file offset 0x220 (buffer 0x260)
holds the file offset 0x260, and the `AttackMoveRegion` itself sits at
buffer offset 0x2A0 with hash `0xF2CFE08D` and `delay` bytes
`09 09 09 09`. -/
def c4raw : List Nat :=
  (((((((((((((((List.replicate 0x2E0 0).set 0x40 0xB5).set 0x41
    0x7B).set 0x42 0xF0).set 0x43 0xEB).set 0x60 0x20).set 0x61
    0x02).set 0x64 0x01).set 0x260 0x60).set 0x261 0x02).set 0x2A0
    0x8D).set 0x2A1 0xE0).set 0x2A2 0xCF).set 0x2A3 0xF2).set 0x2A4
    0x09 |>.set 0x2A5 0x09).set 0x2A6 0x09 |>.set 0x2A7 0x09

/-- `c4raw` wrapped as a PC-console `Bin`. -/
def c4bin : Bin := ⟨[], Console.PC, c4raw⟩

/-- What the write-back actually produces from `c4bin`: the hitbox
`delay` bytes are stored at 0x264 (the remembered file offset 0x260
plus 4, without the header correction) instead of at 0x2A4. -/
def c4expected : List Nat :=
  (((c4raw.set 0x264 0x09).set 0x265 0x09).set 0x266 0x09).set
    0x267 0x09

/-- C4: the write-back path for an object's remembered hitbox offsets
does not add the 0x40 header length: reading the attack of `c4bin` and
writing it back stores the hitbox `delay` at buffer offset 0x264
(file-relative 0x260 + 0x04) instead of the relocated 0x2A4 where it
was read from. -/
theorem attack_write_hitbox_unrelocated :
    (c4bin.get_object_from_offset AttackMoveTypeClass 0 >>= fun a =>
      c4bin.overwrite_object AttackMoveTypeClass AttackMoveTypeWriteable
        0 a) = .ok ⟨[], Console.PC, c4expected⟩ ∧
    c4raw.getD 0x2A4 0 = 0x09 ∧ c4expected.getD 0x2A4 0 = 0x09 ∧
    c4raw.getD 0x264 0 = 0x00 ∧ c4expected.getD 0x264 0 = 0x09 := by
  refine ⟨by decide, by decide, by decide, by decide, by decide⟩

/-- C5: whenever `offset + size` exceeds the buffer length,
`get_object_from_offset` fails with `NotEnoughBytes` carrying the
requested size, the buffer size and the offset. -/
theorem get_object_from_offset_oob {α : Type} (bin : Bin)
    (T : GameObjectClass α) (offset : Nat)
    (h : offset + T.size > bin.raw.length) :
    bin.get_object_from_offset T offset =
      .err (.ClassDeserialiseError
        (.NotEnoughBytes T.size bin.raw.length offset)) := by
  rw [Bin.get_object_from_offset, if_pos h]

/-- C5 witness: requesting an `AttackMoveType` from an empty buffer
yields `NotEnoughBytes 0x260 0 0`. -/
theorem get_object_from_offset_oob_witness :
    Bin.get_object_from_offset ⟨[], Console.PC, []⟩ AttackMoveTypeClass
      0 = .err (.ClassDeserialiseError (.NotEnoughBytes 0x260 0 0)) :=
  get_object_from_offset_oob ⟨[], Console.PC, []⟩ AttackMoveTypeClass 0
    (by decide)

/-- A 0x40-byte all-zero buffer: exactly as long as the container
header. -/
def c5raw : List Nat := List.replicate 0x40 0

/-- C5 counterexample: the guard compares `offset + size` against the
buffer length without the header correction, so an `AttackMoveRegion`
request at offset 0 on a 0x40-byte buffer passes the guard
(0 + 0x40 ≤ 0x40) and then panics slicing `raw[0x40..0x44]` for the
hash — an out-of-bounds failure that is not `NotEnoughBytes`. -/
theorem get_object_guard_passes_but_panics :
    Bin.get_object_from_offset ⟨[], Console.PC, c5raw⟩
      AttackMoveRegionClass 0 = .panic := by
  decide

/-- C8: a hash with no registry entry makes `BinObject::new` fail with
`ClassDeserialiseError (IncorrectType hash)` — the only miss error the
code has (there is no `UnknownClass` variant). -/
theorem binobject_new_unknown_hash (raw : List Nat) (offset : Nat)
    (console : Console) (h : Nat)
    (hread : read_u32_at console raw (Bin.header_length + offset)
      (Bin.header_length + offset + 0x04) = .ok h)
    (hmiss : hash_lookup h = none) :
    BinObject.new raw offset console =
      .err (.ClassDeserialiseError (.IncorrectType h)) := by
  rw [BinObject.new, hread, Outcome.ok_bind, hmiss]

/-- A 0x44-byte buffer whose 4 bytes at the relocated offset 0x40 spell
the unregistered hash `0xDEADBEEF` little-endian. -/
def c8raw : List Nat :=
  ((((List.replicate 0x44 0).set 0x40 0xEF).set 0x41 0xBE).set
    0x42 0xAD).set 0x43 0xDE

/-- C8 witness: resolving the stub over `c8raw` fails with
`IncorrectType 0xDEADBEEF`. -/
theorem binobject_new_unknown_hash_witness :
    BinObject.new c8raw 0 Console.PC =
      .err (.ClassDeserialiseError (.IncorrectType 0xDEADBEEF)) :=
  binobject_new_unknown_hash c8raw 0 Console.PC 0xDEADBEEF (by decide)
    (by decide)

/-- C8 counterexample: `0xDEADBEEF` misses the registry, and the
resulting error is the `IncorrectType` kind — not a distinct
`UnknownClass` kind, which does not exist in `Error`. -/
theorem binobject_new_miss_is_incorrect_type :
    hash_lookup 0xDEADBEEF = none ∧
    BinObject.new c8raw 0 Console.PC =
      .err (.ClassDeserialiseError (.IncorrectType 0xDEADBEEF)) := by
  constructor
  · decide
  · decide

/-- C9 counterexample: none of the three class names hashes to the
value the registry records for it. -/
theorem hash_spec_values_mismatch :
    superslam.hash "Game::AttackMoveType" ≠ 0xEBF07BB5 ∧
    superslam.hash "Game::AttackMoveRegion" ≠ 0xF2CFE08D ∧
    superslam.hash "gf::DB" ≠ 0x9B3DDBED := by
  refine ⟨by decide, by decide, by decide⟩

/-- C9: amended — the hash function reproduces the repository's own
test vectors, and the registry associates the three recorded hash
values with the three class names; but the registry keys are not
outputs of the hash function on those names (for example
`hash "Game::AttackMoveType" = 0x58273C61`, not `0xEBF07BB5`). -/
theorem hash_test_vectors_and_registry :
    superslam.hash "1" = 0x31 ∧
    superslam.hash "bk_cape" = 0x53C00A7D ∧
    superslam.hash "shrekpuppet_shirtfrontr" = 0x873DD7A1 ∧
    hash_lookup 0xEBF07BB5 = some "Game::AttackMoveType" ∧
    hash_lookup 0xF2CFE08D = some "Game::AttackMoveRegion" ∧
    hash_lookup 0x9B3DDBED = some "gf::DB" ∧
    superslam.hash "Game::AttackMoveType" = 0x58273C61 := by
  refine ⟨by decide, by decide, by decide, by decide, by decide,
    by decide, by decide⟩

/-- C10: when no byte from the relocated offset to the end of the
buffer is NUL, `get_str_from_offset` silently returns `Ok ""` (the
missing terminator defaults the string size to 0). -/
theorem get_str_from_offset_no_nul (bin : Bin) (offset : Nat)
    (hle : offset + Bin.header_length ≤ bin.raw.length)
    (hnz : ∀ b ∈ bin.raw.drop (offset + Bin.header_length), b ≠ 0) :
    bin.get_str_from_offset offset = .ok "" := by
  have hpos : position (fun b => b == 0x00)
      (bin.raw.drop (offset + Bin.header_length)) = none :=
    position_eq_none _ _ (fun b hb => by simpa using hnz b hb)
  have hv : str_value bin offset = "" := by
    simp only [str_value]
    rw [hpos]
    rfl
  rw [get_str_from_offset_ok bin offset hle, hv]

/-- C10 witness: an 0x50-byte buffer of `0x01` bytes has no NUL after
offset 0x40, and the string at offset 0 reads back as `""`. -/
theorem get_str_from_offset_no_nul_witness :
    Bin.get_str_from_offset ⟨[], Console.PC, List.replicate 0x50 1⟩ 0 =
      .ok "" :=
  get_str_from_offset_no_nul ⟨[], Console.PC, List.replicate 0x50 1⟩ 0
    (by decide) (by decide)

/-- C3 counterexample: a successful overwrite of the attack in `c4bin`
(one remembered hitbox) modifies byte 0x264, which lies outside every
fixed scalar range the class declares mutable — outside the object's own
ranges and outside its hitbox's ranges at the relocated position. -/
theorem overwrite_attack_modifies_undeclared_byte :
    (c4bin.get_object_from_offset AttackMoveTypeClass 0 >>= fun a =>
      c4bin.overwrite_object AttackMoveTypeClass AttackMoveTypeWriteable
        0 a) = .ok ⟨[], Console.PC, c4expected⟩ ∧
    c4expected.getD 0x264 0 ≠ c4raw.getD 0x264 0 ∧
    ¬ amtDeclaredMutable (0 + Bin.header_length)
      (attack_read_value c4bin (0 + Bin.header_length)) 0x264 := by
  refine ⟨by decide, by decide, by decide⟩
